import Mathlib

/-!
Verification of the gateway-orchestrator reconciliation engine.

This file gives a shallow embedding of the controller code
(internal/controller and internal/aws) and proves or refutes the
frozen specification claims about it.  Pure Go functions become Lean
functions; the reconcile loops become explicit state-passing functions
over an environment record that fixes the outcome of every external
call (Kubernetes API reads/writes, ACM, Route53).
-/

namespace GatewayOrchestrator

/-! ## Condition model (k8s.io/apimachinery meta conditions) -/

/-- Status value of a k8s condition: True, False or Unknown. -/
inductive ConditionStatus where
  | isTrue
  | isFalse
  | unknown
deriving DecidableEq, Repr

/-- One entry of a status `conditions` list. `lastTransitionTime` is not
modelled; no claim mentions it. -/
structure Condition where
  condType : String
  status : ConditionStatus
  reason : String
  message : String
  observedGeneration : Nat
deriving DecidableEq, Repr

/-- meta.SetStatusCondition: replace the first condition with the same
type, or append when absent.  Condition lists built by the controller
hold at most one entry per type, so first-match replacement coincides
with the library's unique-entry update. -/
def setStatusCondition (conds : List Condition) (c : Condition) : List Condition :=
  match conds with
  | [] => [c]
  | x :: rest =>
    if x.condType = c.condType then c :: rest
    else x :: setStatusCondition rest c

/-- meta.RemoveStatusCondition: drop every condition of the given type. -/
def removeStatusCondition : List Condition → String → List Condition
  | [], _ => []
  | c :: rest, t =>
    if c.condType = t then removeStatusCondition rest t
    else c :: removeStatusCondition rest t

/-- meta.IsStatusConditionTrue: first condition of the given type has
status True. -/
def isStatusConditionTrue (conds : List Condition) (t : String) : Bool :=
  match conds with
  | [] => false
  | c :: rest =>
    if c.condType = t then (c.status == ConditionStatus.isTrue)
    else isStatusConditionTrue rest t

/-! ## Data model -/

/-- Spec of a GatewayHostnameRequest (api/v1alpha1). -/
structure GatewayHostnameRequestSpec where
  zoneId : String
  hostname : String
  environment : String
  visibility : String
  gatewayClass : String
  wafArn : String
  gatewaySelector : Option (List (String × String))
deriving DecidableEq, Repr

/-- Status subresource of a GatewayHostnameRequest. -/
structure GatewayHostnameRequestStatus where
  observedGeneration : Nat
  observedSpecHash : String
  certificateArn : String
  assignedGateway : String
  assignedGatewayNamespace : String
  assignedLoadBalancer : String
  conditions : List Condition
deriving DecidableEq, Repr

/-- A GatewayHostnameRequest object.  `ns` stands for the object's
metadata.namespace (a Lean keyword). -/
structure GatewayHostnameRequest where
  name : String
  ns : String
  uid : String
  generation : Nat
  deletionTimestampSet : Bool
  finalizers : List String
  spec : GatewayHostnameRequestSpec
  status : GatewayHostnameRequestStatus
deriving DecidableEq, Repr

/-- The single finalizer key used by the controller. -/
def FinalizerName : String := "gateway-orchestrator.opendi.com/finalizer"

/-- computeSpecHash hashes `hostname|zoneId|visibility|gatewayClass` with
SHA-256 and keeps the first 8 bytes hex-encoded.  The reconciler consumes the
hash only through equality tests, so the digest step is modelled by the
preimage string itself (SHA-256 is injective for the embedding's purposes). -/
def computeSpecHash (spec : GatewayHostnameRequestSpec) : String :=
  spec.hostname ++ "|" ++ spec.zoneId ++ "|" ++ spec.visibility ++ "|" ++ spec.gatewayClass

/-! ## Region catalog (internal/aws/regions.go) -/

/-- ALBHostedZoneIDs maps AWS regions to their ALB canonical hosted zone IDs. -/
def ALBHostedZoneIDs : List (String × String) :=
  [("us-east-1", "Z35SXDOTRQ7X7K"),
   ("us-east-2", "Z3AADJGX6KTTL2"),
   ("us-west-1", "Z368ELLRRE2KJ0"),
   ("us-west-2", "Z1H1FL5HABSF5"),
   ("ca-central-1", "ZQSVJUPU6J1EY"),
   ("eu-central-1", "Z215JYRZR1TBD5"),
   ("eu-west-1", "Z32O12XQLNTSW2"),
   ("eu-west-2", "ZHURV8PSTC4K8"),
   ("eu-west-3", "Z3Q77PNBQS71R4"),
   ("eu-north-1", "Z23TAZ6LKFMNIO"),
   ("eu-south-1", "Z3ULH7SSC9OV64"),
   ("ap-east-1", "Z3DQVH9N71FHZ0"),
   ("ap-northeast-1", "Z14GRHDCWA56QT"),
   ("ap-northeast-2", "ZWKZPGTI48KDX"),
   ("ap-northeast-3", "Z5LXEXXYW11ES"),
   ("ap-southeast-1", "Z1LMS91P8CMLE5"),
   ("ap-southeast-2", "Z1GM3OXH4ZPM65"),
   ("ap-south-1", "ZP97RAFLXTNZK"),
   ("sa-east-1", "Z2P70J7HTTTPLU"),
   ("me-south-1", "ZS929ML54UICD"),
   ("af-south-1", "Z268VQBMOI5EKX")]

/-- GetALBHostedZoneID returns the canonical hosted zone ID for ALBs in the
given region, or an unknown-region error. -/
def GetALBHostedZoneID (region : String) : Except String String :=
  match ALBHostedZoneIDs.find? (fun p => p.fst == region) with
  | some p => Except.ok p.snd
  | none => Except.error ("unknown region: " ++ region ++ " (ALB hosted zone ID not found)")

/-- strings.Split at the dot separator (Go's strings.Split(s, ".")),
implemented over the character data so that concrete runs evaluate. -/
def splitOnDot (s : String) : List String :=
  (s.data.splitOnP (fun c => c == '.')).map List.asString

/-- ExtractRegionFromALBDNS parses `<name>.<region>.elb.amazonaws.com`. -/
def ExtractRegionFromALBDNS (albDNS : String) : Except String String :=
  let parts := splitOnDot albDNS
  if parts.length < 4 then
    Except.error ("invalid ALB DNS name format: " ++ albDNS)
  else if 5 ≤ parts.length && parts.getD (parts.length - 3) "" == "elb" then
    Except.ok (parts.getD (parts.length - 4) "")
  else
    Except.error ("could not extract region from ALB DNS: " ++ albDNS)

/-- getALBHostedZoneId (controller helper): best-effort lookup returning the
empty string on any parse or lookup failure. -/
def getALBHostedZoneId (albDNS : String) : String :=
  match ExtractRegionFromALBDNS albDNS with
  | Except.error _ => ""
  | Except.ok region =>
    match GetALBHostedZoneID region with
    | Except.ok zoneId => zoneId
    | Except.error _ => ""

/-! ## Domain claim registry (internal/controller/domainclaim.go) -/

/-- Owner reference stored in a DomainClaim. -/
structure DomainClaimOwnerRef where
  ns : String
  name : String
  uid : String
deriving DecidableEq, Repr

/-- A cluster-scoped DomainClaim object. -/
structure DomainClaim where
  name : String
  zoneId : String
  hostname : String
  ownerRef : DomainClaimOwnerRef
deriving DecidableEq, Repr

/-- Outcome of the Get call for the claim name. -/
inductive ClaimGetResult where
  | found (claim : DomainClaim)
  | notFound
  | getErr (msg : String)
deriving DecidableEq, Repr

/-- Outcome of the Create call for a fresh claim. -/
inductive ClaimCreateResult where
  | created
  | alreadyExists
  | createErr (msg : String)
deriving DecidableEq, Repr

/-- strings.ReplaceAll(hostname, "*", "wildcard") over character data. -/
def replaceStar : List Char → List Char
  | [] => []
  | c :: rest =>
    if c = '*' then
      ('w' :: 'i' :: 'l' :: 'd' :: 'c' :: 'a' :: 'r' :: 'd' :: []) ++ replaceStar rest
    else c :: replaceStar rest

/-- strings.ToLower over character data (the inputs are ASCII names). -/
def toLowerStr (s : String) : String :=
  List.asString (s.data.map Char.toLower)

/-- generateClaimName: lowercase `zoneId-hostname` with `*` replaced by
`wildcard`. -/
def generateClaimName (zoneId hostname : String) : String :=
  let sanitized := List.asString (replaceStar hostname.data)
  toLowerStr zoneId ++ "-" ++ toLowerStr sanitized

/-- ensureDomainClaim: Owned when the existing claim's ownerRef triple matches
the request; Conflict (ok false, no mutation) otherwise; creates the claim
when absent; an already-exists race is a Conflict.  The second component is
the claim written by this call, if any (its only possible mutation). -/
def ensureDomainClaim (getRes : ClaimGetResult) (createRes : ClaimCreateResult)
    (ghr : GatewayHostnameRequest) : Except String Bool × Option DomainClaim :=
  match getRes with
  | ClaimGetResult.found claim =>
    if claim.ownerRef.ns = ghr.ns ∧ claim.ownerRef.name = ghr.name ∧
        claim.ownerRef.uid = ghr.uid then
      (Except.ok true, none)
    else
      (Except.ok false, none)
  | ClaimGetResult.getErr m => (Except.error ("failed to get domain claim: " ++ m), none)
  | ClaimGetResult.notFound =>
    match createRes with
    | ClaimCreateResult.alreadyExists => (Except.ok false, none)
    | ClaimCreateResult.createErr m =>
      (Except.error ("failed to create domain claim: " ++ m), none)
    | ClaimCreateResult.created =>
      (Except.ok true, some
        { name := generateClaimName ghr.spec.zoneId ghr.spec.hostname,
          zoneId := ghr.spec.zoneId, hostname := ghr.spec.hostname,
          ownerRef := { ns := ghr.ns, name := ghr.name, uid := ghr.uid } })

/-! ## LB configuration synthesizer (internal/controller/loadbalancerconfig.go) -/

/-- One entry of `listenerConfigurations`. -/
inductive ListenerConfiguration where
  | https (protocolPort defaultCertificate : String) (certificates : Option (List String))
  | http (protocolPort : String)
deriving DecidableEq, Repr

/-- The spec the controller writes into a LoadBalancerConfiguration object. -/
structure LoadBalancerConfigurationSpec where
  scheme : String
  listenerConfigurations : List ListenerConfiguration
  targetType : String
  wafArn : Option String
deriving DecidableEq, Repr

/-- The lexicographic byte order Go's sort.Strings sorts by, over character
data (ASCII inputs make this the byte order). -/
def charListLe : List Char → List Char → Bool
  | [], _ => true
  | _ :: _, [] => false
  | a :: as, b :: bs => if a = b then charListLe as bs else decide (a < b)

/-- String comparison of sort.Strings. -/
def stringLe (a b : String) : Bool :=
  charListLe a.data b.data

/-- ensureLoadBalancerConfiguration: the spec computed and written (by Create
when the object is absent, by full-spec Update otherwise — both write this
same value).  Certificates are sorted on a copy; the smallest becomes
`defaultCertificate` and the rest, when any, the SNI `certificates` list. -/
def ensureLoadBalancerConfiguration (certificateARNs : List String)
    (visibility wafArn : String) : LoadBalancerConfigurationSpec :=
  let listenerConfigs :=
    match List.insertionSort (fun a b : String => stringLe a b = true) certificateARNs with
    | [] => [ListenerConfiguration.http "HTTP:80"]
    | c :: rest =>
      [ListenerConfiguration.https "HTTPS:443" c (if rest.isEmpty then none else some rest),
       ListenerConfiguration.http "HTTP:80"]
  { scheme := visibility,
    listenerConfigurations := listenerConfigs,
    targetType := "ip",
    wafArn := if wafArn = "" then none else some wafArn }

/-- getGatewayCertificateARNs: walk the listed requests and keep the
certificate ARN of those assigned to the gateway with a non-empty ARN.
The source applies no deletionTimestamp filter. -/
def getGatewayCertificateARNs :
    List GatewayHostnameRequest → String → String → List String
  | [], _, _ => []
  | g :: rest, gatewayName, gatewayNamespace =>
    if g.status.assignedGateway = gatewayName ∧
        g.status.assignedGatewayNamespace = gatewayNamespace ∧
        g.status.certificateArn ≠ "" then
      g.status.certificateArn :: getGatewayCertificateARNs rest gatewayName gatewayNamespace
    else
      getGatewayCertificateARNs rest gatewayName gatewayNamespace

/-- The ARN list syncLoadBalancerConfiguration passes to the synthesizer:
the collected ARNs, with `newCertARN` appended when non-empty and absent. -/
def collectedCertificateARNs (items : List GatewayHostnameRequest)
    (gatewayName gatewayNamespace newCertARN : String) : List String :=
  let arns := getGatewayCertificateARNs items gatewayName gatewayNamespace
  if newCertARN ≠ "" ∧ ¬ arns.contains newCertARN then arns ++ [newCertARN] else arns

/-- syncLoadBalancerConfiguration: collect the gateway's certificate ARNs and
write the synthesized LoadBalancerConfiguration spec. -/
def syncLoadBalancerConfiguration (items : List GatewayHostnameRequest)
    (gatewayName gatewayNamespace visibility wafArn newCertARN : String) :
    LoadBalancerConfigurationSpec :=
  ensureLoadBalancerConfiguration
    (collectedCertificateARNs items gatewayName gatewayNamespace newCertARN)
    visibility wafArn

/-- The certificate set described by the spec sentence for claim C2, written
from the spec's words (assigned to the gateway, deletionTimestamp unset,
certificateId non-empty) for comparison with the source collector. -/
def specLiveCertificateIds :
    List GatewayHostnameRequest → String → String → List String
  | [], _, _ => []
  | g :: rest, gatewayName, gatewayNamespace =>
    if g.status.assignedGateway = gatewayName ∧
        g.status.assignedGatewayNamespace = gatewayNamespace ∧
        g.deletionTimestampSet = false ∧
        g.status.certificateArn ≠ "" then
      g.status.certificateArn :: specLiveCertificateIds rest gatewayName gatewayNamespace
    else
      specLiveCertificateIds rest gatewayName gatewayNamespace

/-- Outcome of a Kubernetes Delete call. -/
inductive DeleteOutcome where
  | ok
  | notFound
  | failed (msg : String)
deriving DecidableEq, Repr

/-- deleteLoadBalancerConfiguration: issue the Delete and swallow every
failure (the source returns nil on the error branch and nil at the end).
The returned value models the Go error result. -/
def deleteLoadBalancerConfiguration (deleteResult : DeleteOutcome) : Option String :=
  match deleteResult with
  | DeleteOutcome.ok => none
  | DeleteOutcome.notFound => none
  | DeleteOutcome.failed _ => none

/-! ## Certificate lifecycle (internal/controller/certificate.go) -/

/-- Result of DescribeCertificate. -/
structure CertificateDetails where
  status : String
  inUseBy : List String
deriving DecidableEq, Repr

/-- checkCertificateStatus: ISSUED is done, PENDING_VALIDATION (and unknown
states) are not yet, FAILED / VALIDATION_TIMED_OUT / REVOKED are errors. -/
def checkCertificateStatus (certificateArn : String)
    (describe : Except String CertificateDetails) : Except String Bool :=
  if certificateArn = "" then Except.error "certificate ARN not set"
  else
    match describe with
    | Except.error m => Except.error ("failed to describe certificate: " ++ m)
    | Except.ok d =>
      if d.status = "ISSUED" then Except.ok true
      else if d.status = "PENDING_VALIDATION" then Except.ok false
      else if d.status = "FAILED" ∨ d.status = "VALIDATION_TIMED_OUT" ∨
          d.status = "REVOKED" then
        Except.error ("certificate in failed state: " ++ d.status)
      else Except.ok false

/-- Route53 alias target of an A/AAAA record. -/
structure AliasTarget where
  dnsName : String
  hostedZoneID : String
  evaluateTargetHealth : Bool
deriving DecidableEq, Repr

/-- A Route53 record as built by the controller.  The zone it is written to
is always the request's `spec.zoneId` and is not repeated here. -/
structure DNSRecord where
  name : String
  recType : String
  value : String
  ttl : Nat
  aliasTarget : Option AliasTarget
deriving DecidableEq, Repr

/-- A DNS validation record returned by the certificate authority. -/
structure ValidationRecord where
  name : String
  recType : String
  value : String
deriving DecidableEq, Repr

/-- Errors of the validation-records step; `validationRecordsNotReady` models
the sentinel `ErrValidationRecordsNotReady` recognised by the caller through
errors.Is. -/
inductive ValidationStepError where
  | validationRecordsNotReady
  | other (msg : String)
deriving DecidableEq, Repr

/-- Upsert the fetched validation records one by one, stopping at the first
failing Route53 write; returns the step result and the records written. -/
def upsertValidationRecords :
    List ValidationRecord → List (Option String) →
      Except ValidationStepError Unit × List DNSRecord
  | [], _ => (Except.ok (), [])
  | v :: rest, outcomes =>
    let record : DNSRecord :=
      { name := v.name, recType := v.recType, value := v.value, ttl := 300,
        aliasTarget := none }
    match outcomes with
    | some e :: _ =>
      (Except.error (ValidationStepError.other ("failed to create validation record: " ++ e)), [])
    | none :: restOutcomes =>
      let out := upsertValidationRecords rest restOutcomes
      (out.fst, record :: out.snd)
    | [] =>
      let out := upsertValidationRecords rest []
      (out.fst, record :: out.snd)

/-- Modelled from the spec: the current body of `ensureValidationRecords` and
the declaration of its sentinel error `ErrValidationRecordsNotReady` are not
present under src/ (src holds a stale copy without the sentinel, while the
controller caller and the unit test TestReconciler_ensureValidationRecords_
PendingACMRecords both require it).  Per the spec: fetch the validation
records from the authority; when the list is empty fail with the distinct
`ValidationRecordsNotReady` error and write no DNS record; otherwise upsert
each record into the user's zone. -/
def ensureValidationRecords (certificateArn : String)
    (fetch : Except String (List ValidationRecord))
    (upserts : List (Option String)) :
    Except ValidationStepError Unit × List DNSRecord :=
  if certificateArn = "" then
    (Except.error (ValidationStepError.other "certificate ARN not set"), [])
  else
    match fetch with
    | Except.error m =>
      (Except.error (ValidationStepError.other ("failed to get validation records: " ++ m)), [])
    | Except.ok [] => (Except.error ValidationStepError.validationRecordsNotReady, [])
    | Except.ok (v :: rest) => upsertValidationRecords (v :: rest) upserts

/-! ## Route53 alias writer (ensureRoute53Alias) -/

/-- One address of a Gateway status; only Hostname-typed addresses matter. -/
structure GatewayAddress where
  isHostnameType : Bool
  value : String
deriving DecidableEq, Repr

/-- First Hostname-typed address value, or the empty string. -/
def firstHostnameAddress : List GatewayAddress → String
  | [] => ""
  | a :: rest => if a.isHostnameType then a.value else firstHostnameAddress rest

/-- Result of ensureRoute53Alias: the Go error, the in-memory status mutation
of `assignedLoadBalancer` (performed before the Route53 write), and the
records upserted. -/
structure AliasStepResult where
  result : Except String Unit
  assignedLoadBalancer : Option String
  upserted : List DNSRecord
deriving Repr

/-- ensureRoute53Alias: resolve the assigned gateway's ALB DNS name, derive
the canonical hosted zone from its region, and upsert a single alias record
of type A for the hostname. -/
def ensureRoute53Alias (assignedGateway hostname : String)
    (gatewayGet : Except String (List GatewayAddress))
    (upsert : Option String) : AliasStepResult :=
  if assignedGateway = "" then ⟨Except.error "no gateway assigned", none, []⟩
  else
    match gatewayGet with
    | Except.error m => ⟨Except.error ("failed to get gateway: " ++ m), none, []⟩
    | Except.ok addrs =>
      let lbDNS := firstHostnameAddress addrs
      if lbDNS = "" then
        ⟨Except.error ("gateway " ++ assignedGateway ++
          " does not have LoadBalancer address yet"), none, []⟩
      else
        match ExtractRegionFromALBDNS lbDNS with
        | Except.error m =>
          ⟨Except.error ("failed to extract region from ALB DNS: " ++ m), none, []⟩
        | Except.ok region =>
          match GetALBHostedZoneID region with
          | Except.error m =>
            ⟨Except.error ("failed to get ALB hosted zone ID: " ++ m), none, []⟩
          | Except.ok hostedZoneID =>
            let target : AliasTarget :=
              { dnsName := lbDNS, hostedZoneID := hostedZoneID,
                evaluateTargetHealth := true }
            let record : DNSRecord :=
              { name := hostname, recType := "A", value := "", ttl := 0,
                aliasTarget := some target }
            match upsert with
            | some e =>
              ⟨Except.error ("failed to create Route53 ALIAS record: " ++ e), some lbDNS, []⟩
            | none => ⟨Except.ok (), some lbDNS, [record]⟩

/-! ## The normal reconcile loop (reconcileNormal)

The loop is embedded as explicit state passing.  `Env` fixes the outcome of
every external call the run can make; `St` carries the in-memory object, the
last successfully persisted status, and the external writes performed.
Status-subresource updates consume a list of Booleans (success per call;
exhausted list means success), so runs with arbitrary update failures are in
scope. -/

/-- ctrl.Result values the reconciler returns. -/
inductive ReconcileResult where
  | empty
  | requeue
  | requeueAfter (seconds : Nat)
deriving DecidableEq, Repr

/-- Outcome of probing a Kubernetes object by Get: it exists, it is
not-found, or the Get failed with some other error. -/
inductive ProbeResult where
  | present
  | absent
  | probeErr (msg : String)
deriving DecidableEq, Repr

/-- Outcomes of every external call a normal reconcile can make, in program
order.  ensureGatewayAssignment is abstracted by its effect: the chosen
gateway (name, namespace) or the error it returns; its internals (pool
selection, LB-config sync) are not consumed by any claim. -/
structure Env where
  claimGet : ClaimGetResult
  claimCreate : ClaimCreateResult
  gatewayProbe : ProbeResult
  lbcProbe : ProbeResult
  driftDescribe : Except String CertificateDetails
  requestCert : Except String String
  validationFetch : Except String (List ValidationRecord)
  validationUpserts : List (Option String)
  describeCert : Except String CertificateDetails
  assignGateway : Except String (String × String)
  aliasGatewayGet : Except String (List GatewayAddress)
  aliasUpsert : Option String
  statusUpdates : List Bool
deriving Repr

/-- Run state: the in-memory object, the last persisted status, and the
externally visible writes of the run so far. -/
structure St where
  ghr : GatewayHostnameRequest
  persisted : GatewayHostnameRequestStatus
  claimCreated : Option DomainClaim
  dnsUpserts : List DNSRecord
  reprovisionCleanupRan : Bool
  statusUpdates : List Bool
deriving Repr

/-- r.Status().Update: pop the next oracle outcome; on success the in-memory
status becomes the persisted one. -/
def statusUpdate (st : St) : Bool × St :=
  match st.statusUpdates with
  | [] => (true, { st with persisted := st.ghr.status })
  | b :: rest =>
    let p := if b then st.ghr.status else st.persisted
    (b, { st with statusUpdates := rest, persisted := p })

/-- Final outcome of a reconcile run: (ctrl.Result, error) plus the state. -/
structure RunOut where
  res : ReconcileResult
  err : Option String
  st : St
deriving Repr

/-- A step either ends the run or hands the state to the next step. -/
inductive StepRes where
  | done (out : RunOut)
  | next (st : St)
deriving Repr

/-- Chain a step with the rest of the run. -/
def andThen (r : StepRes) (f : St → RunOut) : RunOut :=
  match r with
  | StepRes.done out => out
  | StepRes.next st => f st

/-- r.setCondition: meta.SetStatusCondition with the object's generation. -/
def setCondition (st : St) (condType : String) (status : ConditionStatus)
    (reason message : String) : St :=
  let c : Condition :=
    { condType := condType, status := status, reason := reason,
      message := message, observedGeneration := st.ghr.generation }
  let conds := setStatusCondition st.ghr.status.conditions c
  { st with ghr.status.conditions := conds }

/-- meta.RemoveStatusCondition applied to the run state. -/
def removeCondition (st : St) (t : String) : St :=
  { st with ghr.status.conditions := removeStatusCondition st.ghr.status.conditions t }

/-- Spec-drift gate: when the persisted hash differs from the recomputed one,
run the reprovisioning cleanup (external best-effort effects that never touch
the in-memory status; its error is ignored by the caller, so only a marker is
tracked), clear the status, persist and requeue. -/
def specDriftStep (st : St) : StepRes :=
  let currentHash := computeSpecHash st.ghr.spec
  if st.ghr.status.observedSpecHash ≠ "" ∧
      st.ghr.status.observedSpecHash ≠ currentHash then
    let st := { st with reprovisionCleanupRan := true }
    let cleared : GatewayHostnameRequestStatus :=
      { observedGeneration := 0, observedSpecHash := "", certificateArn := "",
        assignedGateway := "", assignedGatewayNamespace := "",
        assignedLoadBalancer := "", conditions := [] }
    let st := { st with ghr.status := cleared }
    let out := statusUpdate st
    if out.fst then StepRes.done ⟨ReconcileResult.requeue, none, out.snd⟩
    else StepRes.done ⟨ReconcileResult.empty, some "status update failed", out.snd⟩
  else StepRes.next st

/-- Drift probe of the assigned gateway and its LoadBalancerConfiguration:
clear ListenerAttached, DnsAliasReady and Ready (and, for a vanished gateway,
the assignment fields) when either is not-found.  Non-notFound Get errors do
nothing. -/
def driftCheckGateway (env : Env) (st : St) : St × Bool :=
  if st.ghr.status.assignedGateway ≠ "" ∧
      isStatusConditionTrue st.ghr.status.conditions "ListenerAttached" = true then
    match env.gatewayProbe with
    | ProbeResult.absent =>
      let st := removeCondition st "ListenerAttached"
      let st := removeCondition st "DnsAliasReady"
      let st := removeCondition st "Ready"
      let st := { st with ghr.status.assignedGateway := "",
                          ghr.status.assignedGatewayNamespace := "",
                          ghr.status.assignedLoadBalancer := "" }
      (st, true)
    | ProbeResult.probeErr _ => (st, false)
    | ProbeResult.present =>
      match env.lbcProbe with
      | ProbeResult.absent =>
        let st := removeCondition st "ListenerAttached"
        let st := removeCondition st "DnsAliasReady"
        let st := removeCondition st "Ready"
        (st, true)
      | _ => (st, false)
  else (st, false)

/-- Drift probe of the recorded certificate: clear the certificate-dependent
conditions and the recorded ARN when DescribeCertificate fails or reports
FAILED or REVOKED. -/
def driftCheckCertificate (env : Env) (st : St) : St × Bool :=
  if st.ghr.status.certificateArn ≠ "" ∧
      isStatusConditionTrue st.ghr.status.conditions "CertificateIssued" = true then
    match env.driftDescribe with
    | Except.error _ =>
      let st := removeCondition st "CertificateIssued"
      let st := removeCondition st "DnsValidated"
      let st := removeCondition st "ListenerAttached"
      let st := removeCondition st "DnsAliasReady"
      let st := removeCondition st "Ready"
      let st := { st with ghr.status.certificateArn := "" }
      (st, true)
    | Except.ok d =>
      if d.status = "FAILED" ∨ d.status = "REVOKED" then
        let st := removeCondition st "CertificateIssued"
        let st := removeCondition st "DnsValidated"
        let st := removeCondition st "ListenerAttached"
        let st := removeCondition st "DnsAliasReady"
        let st := removeCondition st "Ready"
        let st := { st with ghr.status.certificateArn := "" }
        (st, true)
      else (st, false)
  else (st, false)

/-- validateAssignedResources: probe the assigned gateway, its
LoadBalancerConfiguration and the certificate, clearing the affected
conditions on drift; returns the error the function itself returns (only a
failing status update after drift). -/
def validateAssignedResources (env : Env) (st : St) : St × Option String :=
  let c1 := driftCheckGateway env st
  let c2 := driftCheckCertificate env c1.fst
  if c1.snd ∨ c2.snd then
    let out := statusUpdate c2.fst
    if out.fst then (out.snd, none)
    else (out.snd, some "failed to update status after drift detection")
  else (c2.fst, none)

/-- validateRequest: zoneId and hostname are required. -/
def validateRequest (ghr : GatewayHostnameRequest) : Option String :=
  if ghr.spec.zoneId = "" then some "zoneId is required"
  else if ghr.spec.hostname = "" then some "hostname is required"
  else none

/-- Step 2: claim the domain first-come-first-serve. -/
def claimStep (env : Env) (st : St) : StepRes :=
  match ensureDomainClaim env.claimGet env.claimCreate st.ghr with
  | (Except.error m, _) =>
    let st := setCondition st "Claimed" ConditionStatus.isFalse "ClaimFailed" m
    let st := (statusUpdate st).snd
    StepRes.done ⟨ReconcileResult.empty, some m, st⟩
  | (Except.ok false, _) =>
    let st := setCondition st "Claimed" ConditionStatus.isFalse "AlreadyClaimed"
        "Hostname already claimed by another request"
    let st := (statusUpdate st).snd
    StepRes.done ⟨ReconcileResult.empty, none, st⟩
  | (Except.ok true, created) =>
    let st := { st with claimCreated := created }
    let st := setCondition st "Claimed" ConditionStatus.isTrue "Claimed"
        "Domain successfully claimed"
    StepRes.next st

/-- Step 3: request the ACM certificate when none is recorded; the ARN and
the CertificateRequested condition are persisted together. -/
def certStep (env : Env) (st : St) : StepRes :=
  if st.ghr.status.certificateArn = "" then
    match env.requestCert with
    | Except.error m =>
      let msg := "failed to request certificate: " ++ m
      let st := setCondition st "CertificateRequested" ConditionStatus.isFalse
          "RequestFailed" msg
      let st := (statusUpdate st).snd
      StepRes.done ⟨ReconcileResult.empty, some msg, st⟩
    | Except.ok certArn =>
      let st := { st with ghr.status.certificateArn := certArn }
      let st := setCondition st "CertificateRequested" ConditionStatus.isTrue
          "Requested" "Certificate requested from ACM"
      let out := statusUpdate st
      if out.fst then StepRes.next out.snd
      else StepRes.done ⟨ReconcileResult.empty, some "status update failed", out.snd⟩
  else StepRes.next st

/-- Step 4: ensure the DNS validation records, gated on DnsValidated. -/
def validationStep (env : Env) (st : St) : StepRes :=
  if isStatusConditionTrue st.ghr.status.conditions "DnsValidated" = true then
    StepRes.next st
  else
    let run := ensureValidationRecords st.ghr.status.certificateArn
        env.validationFetch env.validationUpserts
    let st := { st with dnsUpserts := st.dnsUpserts ++ run.snd }
    match run.fst with
    | Except.error ValidationStepError.validationRecordsNotReady =>
      let st := setCondition st "DnsValidated" ConditionStatus.isFalse
          "PendingValidationRecords" "Waiting for ACM to provide DNS validation records"
      let st := (statusUpdate st).snd
      StepRes.done ⟨ReconcileResult.requeueAfter 15, none, st⟩
    | Except.error (ValidationStepError.other m) =>
      let st := setCondition st "DnsValidated" ConditionStatus.isFalse
          "ValidationRecordFailed" m
      let st := (statusUpdate st).snd
      StepRes.done ⟨ReconcileResult.empty, some m, st⟩
    | Except.ok _ =>
      let st := setCondition st "DnsValidated" ConditionStatus.isTrue
          "RecordsCreated" "DNS validation records created"
      let out := statusUpdate st
      if out.fst then StepRes.next out.snd
      else StepRes.done ⟨ReconcileResult.empty, some "status update failed", out.snd⟩

/-- Step 5: poll certificate issuance, gated on CertificateIssued. -/
def issuanceStep (env : Env) (st : St) : StepRes :=
  if isStatusConditionTrue st.ghr.status.conditions "CertificateIssued" = true then
    StepRes.next st
  else
    match checkCertificateStatus st.ghr.status.certificateArn env.describeCert with
    | Except.error m =>
      let st := setCondition st "CertificateIssued" ConditionStatus.isFalse
          "CheckFailed" m
      let st := (statusUpdate st).snd
      StepRes.done ⟨ReconcileResult.empty, some m, st⟩
    | Except.ok false =>
      let st := setCondition st "CertificateIssued" ConditionStatus.isFalse
          "PendingIssuance" "Waiting for ACM to issue certificate"
      let st := (statusUpdate st).snd
      StepRes.done ⟨ReconcileResult.requeueAfter 30, none, st⟩
    | Except.ok true =>
      let st := setCondition st "CertificateIssued" ConditionStatus.isTrue
          "Issued" "Certificate issued by ACM"
      let out := statusUpdate st
      if out.fst then StepRes.next out.snd
      else StepRes.done ⟨ReconcileResult.empty, some "status update failed", out.snd⟩

/-- Step 6: assign to a gateway and attach, gated on ListenerAttached. -/
def assignStep (env : Env) (st : St) : StepRes :=
  if isStatusConditionTrue st.ghr.status.conditions "ListenerAttached" = true then
    StepRes.next st
  else
    match env.assignGateway with
    | Except.error m =>
      let st := setCondition st "ListenerAttached" ConditionStatus.isFalse
          "AttachmentFailed" m
      let st := (statusUpdate st).snd
      StepRes.done ⟨ReconcileResult.empty, some m, st⟩
    | Except.ok gw =>
      let st := { st with ghr.status.assignedGateway := gw.fst,
                          ghr.status.assignedGatewayNamespace := gw.snd }
      let st := setCondition st "ListenerAttached" ConditionStatus.isTrue
          "Attached" "Certificate attached to Gateway"
      let out := statusUpdate st
      if out.fst then StepRes.next out.snd
      else StepRes.done ⟨ReconcileResult.empty, some "status update failed", out.snd⟩

/-- Step 7: write the Route53 alias, gated on DnsAliasReady.  A missing
LoadBalancer address requeues after 30s without setting the condition; every
other failure sets DnsAliasReady False with reason AliasFailed and returns
the error. -/
def aliasStep (env : Env) (st : St) : StepRes :=
  if isStatusConditionTrue st.ghr.status.conditions "DnsAliasReady" = true then
    StepRes.next st
  else
    let run := ensureRoute53Alias st.ghr.status.assignedGateway st.ghr.spec.hostname
        env.aliasGatewayGet env.aliasUpsert
    let st := { st with dnsUpserts := st.dnsUpserts ++ run.upserted }
    let st :=
      match run.assignedLoadBalancer with
      | some lb => { st with ghr.status.assignedLoadBalancer := lb }
      | none => st
    match run.result with
    | Except.error m =>
      if m = "gateway " ++ st.ghr.status.assignedGateway ++
          " does not have LoadBalancer address yet" then
        StepRes.done ⟨ReconcileResult.requeueAfter 30, none, st⟩
      else
        let st := setCondition st "DnsAliasReady" ConditionStatus.isFalse "AliasFailed" m
        let st := (statusUpdate st).snd
        StepRes.done ⟨ReconcileResult.empty, some m, st⟩
    | Except.ok _ =>
      let st := setCondition st "DnsAliasReady" ConditionStatus.isTrue "Created"
          "Route53 ALIAS record created"
      let out := statusUpdate st
      if out.fst then StepRes.next out.snd
      else StepRes.done ⟨ReconcileResult.empty, some "status update failed", out.snd⟩

/-- Step 9: record the observed generation and hash, set Ready and persist.
Step 8 (namespace label, allowedRoutes, gateway-configuration sync) precedes
this in the source; its failures are logged and ignored and none of it
touches the request status, so it leaves no trace in the run state. -/
def finalStep (st : St) : RunOut :=
  let st := { st with ghr.status.observedGeneration := st.ghr.generation,
                      ghr.status.observedSpecHash := computeSpecHash st.ghr.spec }
  let st := setCondition st "Ready" ConditionStatus.isTrue "Ready"
      "Hostname request fully provisioned"
  let out := statusUpdate st
  if out.fst then ⟨ReconcileResult.empty, none, out.snd⟩
  else ⟨ReconcileResult.empty, some "status update failed", out.snd⟩

/-- Steps 2-9 of the pipeline, from the domain claim on. -/
def pipelineSteps (env : Env) (st : St) : RunOut :=
  andThen (claimStep env st) fun st =>
  andThen (certStep env st) fun st =>
  andThen (validationStep env st) fun st =>
  andThen (issuanceStep env st) fun st =>
  andThen (assignStep env st) fun st =>
  andThen (aliasStep env st) fun st =>
  finalStep st

/-- reconcileNormal: the full non-deleting reconcile pipeline. -/
def reconcileNormal (env : Env) (ghr0 : GatewayHostnameRequest) : RunOut :=
  let st0 : St := { ghr := ghr0, persisted := ghr0.status, claimCreated := none,
                    dnsUpserts := [], reprovisionCleanupRan := false,
                    statusUpdates := env.statusUpdates }
  andThen (specDriftStep st0) fun st =>
  let checked := validateAssignedResources env st
  let st :=
    match checked.snd with
    | some m =>
      (statusUpdate (setCondition checked.fst "ResourceValidationError"
        ConditionStatus.isTrue "ValidationFailed"
        ("Validation error (will auto-correct): " ++ m))).snd
    | none => checked.fst
  match validateRequest st.ghr with
  | some m =>
    let st := setCondition st "Ready" ConditionStatus.isFalse "ValidationFailed" m
    let st := (statusUpdate st).snd
    ⟨ReconcileResult.empty, some m, st⟩
  | none => pipelineSteps env st

/-! ## The deletion path (reconcileDelete) -/

/-- Outcomes of the external calls a deletion reconcile can make, in program
order. `rcGatewayGet` is removeCertificateFromGateway's Get of the assigned
gateway, yielding its visibility and waf-arn annotations when it exists. -/
structure DelEnv where
  listItems : List GatewayHostnameRequest
  rcGatewayGet : Except Unit (String × String)
  lbcWriteErr : Option String
  validationFetch : Except String (List ValidationRecord)
  describeCert : Except String CertificateDetails
  deleteCertErr : Option String
  claimGet : ClaimGetResult
  lbcProbe : ProbeResult
  lbcDeleteErr : Option String
  gatewayProbe : ProbeResult
  gatewayDeleteErr : Option String
  statusUpdates : List Bool
  objectUpdateOk : Bool
deriving Repr

/-- Deletion run state.  `dnsDeletes` lists the Route53 delete calls issued
(their own failures are logged and ignored); `certDeleteAttempted` records
that DeleteCertificate was called; `finalizerRemoved` that the finalizer
removal was persisted. -/
structure DSt where
  ghr : GatewayHostnameRequest
  persisted : GatewayHostnameRequestStatus
  dnsDeletes : List DNSRecord
  certDeleteAttempted : Bool
  lbcWritten : Option LoadBalancerConfigurationSpec
  lbcDeleted : Bool
  gatewayDeleted : Bool
  claimDeleted : Bool
  finalizerRemoved : Bool
  statusUpdates : List Bool
deriving Repr

/-- Status update in the deletion run (same oracle scheme as statusUpdate). -/
def dStatusUpdate (st : DSt) : Bool × DSt :=
  match st.statusUpdates with
  | [] => (true, { st with persisted := st.ghr.status })
  | b :: rest =>
    let p := if b then st.ghr.status else st.persisted
    (b, { st with statusUpdates := rest, persisted := p })

/-- setCondition in the deletion run. -/
def dSetCondition (st : DSt) (condType : String) (status : ConditionStatus)
    (reason message : String) : DSt :=
  let c : Condition :=
    { condType := condType, status := status, reason := reason,
      message := message, observedGeneration := st.ghr.generation }
  let conds := setStatusCondition st.ghr.status.conditions c
  { st with ghr.status.conditions := conds }

/-- Live assignments to a gateway, excluding the request being deleted
(cleanupEmptyGateway's count). -/
def assignedCount :
    List GatewayHostnameRequest → String → String → String → String → Nat
  | [], _, _, _, _ => 0
  | g :: rest, gw, gwNs, exNs, exName =>
    let n := assignedCount rest gw gwNs exNs exName
    if g.ns = exNs ∧ g.name = exName then n
    else if g.status.assignedGateway = gw ∧ g.status.assignedGatewayNamespace = gwNs then
      n + 1
    else n

/-- Step 8 of the deletion path: remove the finalizer and persist the object
update. -/
def finishDelete (env : DelEnv) (st : DSt) : Bool × DSt :=
  let st := { st with ghr.finalizers := st.ghr.finalizers.filter (fun f => f ≠ FinalizerName) }
  if env.objectUpdateOk then (true, { st with finalizerRemoved := true })
  else (false, st)

/-- Final outcome of a deletion reconcile. -/
structure DRunOut where
  res : ReconcileResult
  err : Option String
  st : DSt
deriving Repr

/-- Teardown steps 1-4: the Deleting condition, the Route53 alias delete, the
LB-configuration re-sync and the validation-CNAME deletes.  All best-effort:
adapter failures are logged and ignored. -/
def delBestEffort (env : DelEnv) (st0 : DSt) : DSt :=
  let st := dSetCondition st0 "Deleting" ConditionStatus.isTrue
      "DeletionInProgress" "Cleanup in progress"
  let st := (dStatusUpdate st).snd
  let st :=
    if st.ghr.status.assignedLoadBalancer ≠ "" then
      let target : AliasTarget :=
        { dnsName := st.ghr.status.assignedLoadBalancer,
          hostedZoneID := getALBHostedZoneId st.ghr.status.assignedLoadBalancer,
          evaluateTargetHealth := true }
      let record : DNSRecord :=
        { name := st.ghr.spec.hostname, recType := "A", value := "", ttl := 0,
          aliasTarget := some target }
      { st with dnsDeletes := st.dnsDeletes ++ [record] }
    else st
  let st :=
    if st.ghr.status.assignedGateway ≠ "" ∧ st.ghr.status.certificateArn ≠ "" then
      match env.rcGatewayGet with
      | Except.error _ => st
      | Except.ok annotations =>
        let visibility :=
          if annotations.fst = "" then "internet-facing" else annotations.fst
        let written := syncLoadBalancerConfiguration env.listItems
            st.ghr.status.assignedGateway st.ghr.status.assignedGatewayNamespace
            visibility annotations.snd ""
        match env.lbcWriteErr with
        | some _ => st
        | none => { st with lbcWritten := some written }
    else st
  if st.ghr.status.certificateArn ≠ "" then
    match env.validationFetch with
    | Except.error _ => st
    | Except.ok recs =>
      let dels := recs.map (fun v =>
        ({ name := v.name, recType := v.recType, value := v.value, ttl := 300,
           aliasTarget := none } : DNSRecord))
      { st with dnsDeletes := st.dnsDeletes ++ dels }
  else st

/-- The in-use gate of teardown step 5: true only when a certificate is
recorded and DescribeCertificate succeeds with a non-empty inUseBy (a failing
describe falls through to the deletion attempt). -/
def delInUse (env : DelEnv) (st : DSt) : Bool :=
  if st.ghr.status.certificateArn ≠ "" then
    match env.describeCert with
    | Except.error _ => false
    | Except.ok d => ¬ d.inUseBy.isEmpty
  else false

/-- Teardown step 7: deleteDomainClaim — delete only a claim owned by this
request (errors are logged and ignored by the caller). -/
def delReleaseClaim (env : DelEnv) (st : DSt) : DSt :=
  match env.claimGet with
  | ClaimGetResult.found claim =>
    if claim.ownerRef.ns = st.ghr.ns ∧ claim.ownerRef.name = st.ghr.name ∧
        claim.ownerRef.uid = st.ghr.uid then
      { st with claimDeleted := true }
    else st
  | _ => st

/-- cleanupEmptyGateway: when no other request is assigned, delete the
LoadBalancerConfiguration and then the Gateway; a delete failure is returned
and blocks the teardown. -/
def cleanupEmptyGateway (env : DelEnv) (st : DSt) : DSt × Option String :=
  let remaining := assignedCount env.listItems st.ghr.status.assignedGateway
      st.ghr.status.assignedGatewayNamespace st.ghr.ns st.ghr.name
  if remaining > 0 then (st, none)
  else
    let s1 : DSt × Option String :=
      match env.lbcProbe with
      | ProbeResult.present =>
        match env.lbcDeleteErr with
        | some e =>
          (st, some ("failed to delete LoadBalancerConfiguration: " ++ e))
        | none => ({ st with lbcDeleted := true }, none)
      | _ => (st, none)
    match s1.snd with
    | some e => (s1.fst, some e)
    | none =>
      match env.gatewayProbe with
      | ProbeResult.present =>
        match env.gatewayDeleteErr with
        | some e => (s1.fst, some ("failed to delete Gateway: " ++ e))
        | none => ({ s1.fst with gatewayDeleted := true }, none)
      | _ => (s1.fst, none)

/-- Teardown steps 7-8 after the certificate phase: claim release, empty
gateway cleanup (whose failure blocks and is returned as the reconcile
error), assignment clearing and finalizer removal. -/
def delTail (env : DelEnv) (st : DSt) : DRunOut :=
  let st := delReleaseClaim env st
  if st.ghr.status.assignedGateway ≠ "" ∧
      st.ghr.status.assignedGatewayNamespace ≠ "" then
    let cleanup := cleanupEmptyGateway env st
    match cleanup.snd with
    | some e => ⟨ReconcileResult.empty, some e, cleanup.fst⟩
    | none =>
      let st := cleanup.fst
      let st := { st with ghr.status.assignedGateway := "",
                          ghr.status.assignedGatewayNamespace := "" }
      let out := dStatusUpdate st
      if out.fst then
        let fin := finishDelete env out.snd
        if fin.fst then ⟨ReconcileResult.empty, none, fin.snd⟩
        else ⟨ReconcileResult.empty, some "object update failed", fin.snd⟩
      else ⟨ReconcileResult.empty, some "status update failed", out.snd⟩
  else
    let fin := finishDelete env st
    if fin.fst then ⟨ReconcileResult.empty, none, fin.snd⟩
    else ⟨ReconcileResult.empty, some "object update failed", fin.snd⟩

/-- reconcileDelete: the finalizer-driven teardown pipeline.  Steps 1-4 are
best-effort (their adapter failures are logged and ignored); the in-use check
requeues at 15s; an in-use-check failure falls through to a best-effort
certificate deletion; gateway cleanup failure blocks; the finalizer is
removed last. -/
def reconcileDelete (env : DelEnv) (ghr0 : GatewayHostnameRequest) : DRunOut :=
  let st0 : DSt := { ghr := ghr0, persisted := ghr0.status, dnsDeletes := [],
                     certDeleteAttempted := false, lbcWritten := none,
                     lbcDeleted := false, gatewayDeleted := false,
                     claimDeleted := false, finalizerRemoved := false,
                     statusUpdates := env.statusUpdates }
  if ¬ ghr0.finalizers.contains FinalizerName then
    ⟨ReconcileResult.empty, none, st0⟩
  else
    let st := delBestEffort env st0
    if delInUse env st then
      let st := dSetCondition st "Deleting" ConditionStatus.isTrue
          "WaitingForCertDetachment" "Waiting for ALB to detach certificate"
      let st := (dStatusUpdate st).snd
      ⟨ReconcileResult.requeueAfter 15, none, st⟩
    else
      let st :=
        if st.ghr.status.certificateArn ≠ "" then
          { st with certDeleteAttempted := true }
        else st
      delTail env st

/-! ## Invariants and concrete inputs used by the theorems -/

/-- meta.FindStatusCondition: the first condition of the given type. -/
def findStatusCondition : List Condition → String → Option Condition
  | [], _ => none
  | c :: rest, t => if c.condType = t then some c else findStatusCondition rest t

/-- All six gate conditions below Ready are True. -/
def allGatesTrue (conds : List Condition) : Prop :=
  isStatusConditionTrue conds "Claimed" = true ∧
  isStatusConditionTrue conds "CertificateRequested" = true ∧
  isStatusConditionTrue conds "DnsValidated" = true ∧
  isStatusConditionTrue conds "CertificateIssued" = true ∧
  isStatusConditionTrue conds "ListenerAttached" = true ∧
  isStatusConditionTrue conds "DnsAliasReady" = true

/-- Reachability invariant of a persisted status: Ready implies the six gate
conditions and a recorded certificate, and a recorded certificate implies
CertificateRequested.  Every status the controller itself persists satisfies
this. -/
def StatusInv (s : GatewayHostnameRequestStatus) : Prop :=
  (isStatusConditionTrue s.conditions "Ready" = true →
    allGatesTrue s.conditions ∧ s.certificateArn ≠ "") ∧
  (s.certificateArn ≠ "" →
    isStatusConditionTrue s.conditions "CertificateRequested" = true)

/-- Invariant carried through the steps of a normal reconcile run: both the
in-memory and the persisted status satisfy StatusInv, the object identity and
spec are those of the entry object, and Ready can only have survived from the
entry status (no step resurrects it before the final one). -/
structure MidInv (entry : GatewayHostnameRequest) (st : St) : Prop where
  inv : StatusInv st.ghr.status
  pinv : StatusInv st.persisted
  name_eq : st.ghr.name = entry.name
  ns_eq : st.ghr.ns = entry.ns
  uid_eq : st.ghr.uid = entry.uid
  spec_eq : st.ghr.spec = entry.spec
  gen_eq : st.ghr.generation = entry.generation
  ready_mono : isStatusConditionTrue st.ghr.status.conditions "Ready" = true →
    isStatusConditionTrue entry.status.conditions "Ready" = true

/-- A spec used by the concrete runs below. -/
def exampleSpec : GatewayHostnameRequestSpec :=
  { zoneId := "Z123456", hostname := "app.opendi.com", environment := "dev",
    visibility := "internet-facing", gatewayClass := "aws-alb", wafArn := "",
    gatewaySelector := none }

/-- A condition of the given type with status True. -/
def condTrue (t : String) : Condition :=
  { condType := t, status := ConditionStatus.isTrue, reason := "r",
    message := "m", observedGeneration := 1 }

/-- Conditions of a fully provisioned request: the six gates and Ready. -/
def readyConditions : List Condition :=
  [condTrue "Claimed", condTrue "CertificateRequested", condTrue "DnsValidated",
   condTrue "CertificateIssued", condTrue "ListenerAttached",
   condTrue "DnsAliasReady", condTrue "Ready"]

/-- Status of a fully provisioned request. -/
def readyStatus : GatewayHostnameRequestStatus :=
  { observedGeneration := 1,
    observedSpecHash := computeSpecHash exampleSpec,
    certificateArn := "arn:aws:acm:us-east-1:1:certificate/a",
    assignedGateway := "gw-01", assignedGatewayNamespace := "edge",
    assignedLoadBalancer := "k8s-gw01-abc.us-east-1.elb.amazonaws.com",
    conditions := readyConditions }

/-- A fully provisioned request (Ready and all gates True). -/
def readyGhr : GatewayHostnameRequest :=
  { name := "req-a", ns := "team-a", uid := "uid-a", generation := 1,
    deletionTimestampSet := false, finalizers := [FinalizerName],
    spec := exampleSpec, status := readyStatus }

/-- The domain claim for exampleSpec owned by a different request. -/
def otherOwnerClaim : DomainClaim :=
  { name := generateClaimName exampleSpec.zoneId exampleSpec.hostname,
    zoneId := exampleSpec.zoneId, hostname := exampleSpec.hostname,
    ownerRef := { ns := "team-b", name := "req-b", uid := "uid-b" } }

/-- The domain claim for exampleSpec owned by readyGhr itself. -/
def ownOwnerClaim : DomainClaim :=
  { name := generateClaimName exampleSpec.zoneId exampleSpec.hostname,
    zoneId := exampleSpec.zoneId, hostname := exampleSpec.hostname,
    ownerRef := { ns := "team-a", name := "req-a", uid := "uid-a" } }

/-- A benign environment: every probe healthy, every call succeeding. -/
def benignEnv : Env :=
  { claimGet := ClaimGetResult.found ownOwnerClaim,
    claimCreate := ClaimCreateResult.created,
    gatewayProbe := ProbeResult.present, lbcProbe := ProbeResult.present,
    driftDescribe := Except.ok { status := "ISSUED", inUseBy := [] },
    requestCert := Except.ok "arn:aws:acm:us-east-1:1:certificate/a",
    validationFetch := Except.ok
      [{ name := "_v.app.opendi.com", recType := "CNAME", value := "_x.acm." }],
    validationUpserts := [],
    describeCert := Except.ok { status := "ISSUED", inUseBy := [] },
    assignGateway := Except.ok ("gw-01", "edge"),
    aliasGatewayGet := Except.ok
      [{ isHostnameType := true,
         value := "k8s-gw01-abc.us-east-1.elb.amazonaws.com" }],
    aliasUpsert := none, statusUpdates := [] }

/-- The all-empty status of a freshly submitted request. -/
def emptyStatus : GatewayHostnameRequestStatus :=
  { observedGeneration := 0, observedSpecHash := "", certificateArn := "",
    assignedGateway := "", assignedGatewayNamespace := "",
    assignedLoadBalancer := "", conditions := [] }

/-- A freshly submitted request (no status yet). -/
def freshGhr : GatewayHostnameRequest :=
  { readyGhr with status := emptyStatus }

/-- Build a run state for a request, with a status-update oracle. -/
def mkSt (ghr : GatewayHostnameRequest) (updates : List Bool) : St :=
  { ghr := ghr, persisted := ghr.status, claimCreated := none,
    dnsUpserts := [], reprovisionCleanupRan := false, statusUpdates := updates }

/-- Status of a second, live request on the same gateway with its own
certificate. -/
def liveStatusB : GatewayHostnameRequestStatus :=
  { observedGeneration := 1, observedSpecHash := "",
    certificateArn := "arn:aws:acm:us-east-1:1:certificate/b",
    assignedGateway := "gw-01", assignedGatewayNamespace := "edge",
    assignedLoadBalancer := "", conditions := [] }

/-- readyGhr after its deletion was requested (deletionTimestamp set). -/
def deletingGhrA : GatewayHostnameRequest :=
  { readyGhr with deletionTimestampSet := true }

/-- The second, live request on gateway gw-01. -/
def liveGhrB : GatewayHostnameRequest :=
  { name := "req-b", ns := "team-b", uid := "uid-b", generation := 1,
    deletionTimestampSet := false, finalizers := [FinalizerName],
    spec := { exampleSpec with hostname := "www.opendi.com" },
    status := liveStatusB }

/-- The cluster-wide request list while req-a is being deleted. -/
def c2Items : List GatewayHostnameRequest := [deletingGhrA, liveGhrB]

/-- Entry conditions of a request waiting on certificate issuance. -/
def pendingIssuanceConditions : List Condition :=
  [condTrue "Claimed", condTrue "CertificateRequested", condTrue "DnsValidated"]

/-- Status of a request waiting on issuance, not assigned anywhere yet. -/
def pendingIssuanceStatus : GatewayHostnameRequestStatus :=
  { readyStatus with
    conditions := pendingIssuanceConditions,
    assignedGateway := "", assignedGatewayNamespace := "",
    assignedLoadBalancer := "" }

/-- A request whose certificate is requested and validated but not issued;
not yet assigned to any gateway. -/
def pendingIssuanceGhr : GatewayHostnameRequest :=
  { readyGhr with status := pendingIssuanceStatus }

/-- Environment in which the authority reports the certificate FAILED. -/
def failedCertEnv : Env :=
  { benignEnv with describeCert := Except.ok { status := "FAILED", inUseBy := [] } }

/-- Entry conditions of a request waiting only on its DNS alias. -/
def pendingAliasConditions : List Condition :=
  [condTrue "Claimed", condTrue "CertificateRequested", condTrue "DnsValidated",
   condTrue "CertificateIssued", condTrue "ListenerAttached"]

/-- A request waiting only on its DNS alias. -/
def pendingAliasGhr : GatewayHostnameRequest :=
  { readyGhr with status := { readyStatus with conditions := pendingAliasConditions } }

/-- A gateway address list carrying an ALB DNS name in an unknown region. -/
def unknownRegionAddresses : List GatewayAddress :=
  [{ isHostnameType := true,
     value := "k8s-gw01-abc.mars-central-7.elb.amazonaws.com" }]

/-- Environment whose assigned gateway reports an ALB DNS name in an unknown
region. -/
def unknownRegionEnv : Env :=
  { benignEnv with aliasGatewayGet := Except.ok unknownRegionAddresses }

/-- Status of a request whose validation records are not yet written. -/
def pendingValidationStatus : GatewayHostnameRequestStatus :=
  { readyStatus with
    conditions := [condTrue "Claimed", condTrue "CertificateRequested"],
    assignedGateway := "", assignedGatewayNamespace := "",
    assignedLoadBalancer := "" }

/-- A request whose certificate is requested but whose validation records are
not yet available. -/
def pendingValidationGhr : GatewayHostnameRequest :=
  { readyGhr with status := pendingValidationStatus }

/-- Environment in which the authority returns no validation records yet. -/
def emptyRecordsEnv : Env :=
  { benignEnv with validationFetch := Except.ok [] }

/-- Environment in which another request's DomainClaim holds the hostname. -/
def conflictEnv : Env :=
  { benignEnv with claimGet := ClaimGetResult.found otherOwnerClaim }

/-- Deletion environment in which DescribeCertificate fails outright. -/
def c4ErrEnv : DelEnv :=
  { listItems := [deletingGhrA],
    rcGatewayGet := Except.ok ("internet-facing", ""),
    lbcWriteErr := none,
    validationFetch := Except.ok [],
    describeCert := Except.error "describe outage",
    deleteCertErr := none,
    claimGet := ClaimGetResult.found ownOwnerClaim,
    lbcProbe := ProbeResult.present, lbcDeleteErr := none,
    gatewayProbe := ProbeResult.present, gatewayDeleteErr := none,
    statusUpdates := [], objectUpdateOk := true }

/-- DescribeCertificate result of a certificate still attached to an ALB. -/
def busyCertDetails : CertificateDetails :=
  { status := "ISSUED", inUseBy := ["arn:aws:elasticloadbalancing:lb-1"] }

/-- Deletion environment in which the certificate is reported in use by the
ALB. -/
def c4BusyEnv : DelEnv :=
  { c4ErrEnv with describeCert := Except.ok busyCertDetails }

/-- Deletion environment in which the certificate is reported detached. -/
def c8DelEnv : DelEnv :=
  { c4ErrEnv with describeCert := Except.ok { status := "ISSUED", inUseBy := [] } }

theorem isTrue_set (conds : List Condition) (c : Condition) (t : String) :
    isStatusConditionTrue (setStatusCondition conds c) t =
      if t = c.condType then (c.status == ConditionStatus.isTrue)
      else isStatusConditionTrue conds t := by
  induction conds with
  | nil =>
    rcases eq_or_ne t c.condType with h | h
    · simp [setStatusCondition, isStatusConditionTrue, h]
    · simp [setStatusCondition, isStatusConditionTrue, h, Ne.symm h]
  | cons x rest ih =>
    rcases eq_or_ne x.condType c.condType with hx | hx
    · rcases eq_or_ne t c.condType with ht | ht
      · simp [setStatusCondition, isStatusConditionTrue, hx, ht]
      · have hxt : x.condType ≠ t := fun hh => ht (hh.symm.trans hx)
        simp [setStatusCondition, isStatusConditionTrue, hx, ht, hxt, Ne.symm ht]
    · rcases eq_or_ne x.condType t with hxt | hxt
      · have ht : t ≠ c.condType := fun hh => hx (hxt.trans hh)
        simp [setStatusCondition, isStatusConditionTrue, hx, hxt, ht]
      · simp [setStatusCondition, isStatusConditionTrue, hx, hxt, ih]
theorem isTrue_remove (conds : List Condition) (t t' : String) :
    isStatusConditionTrue (removeStatusCondition conds t) t' =
      if t' = t then false else isStatusConditionTrue conds t' := by
  induction conds with
  | nil => simp [removeStatusCondition, isStatusConditionTrue]
  | cons x rest ih =>
    rcases eq_or_ne x.condType t with hx | hx
    · rcases eq_or_ne t' t with ht | ht
      · subst ht
        simp [removeStatusCondition, hx, ih]
      · have hxt : x.condType ≠ t' := fun hh => ht (hh.symm.trans hx)
        simp [removeStatusCondition, isStatusConditionTrue, hx, hxt, ih, ht, Ne.symm ht]
    · rcases eq_or_ne x.condType t' with hxt | hxt
      · have ht : t' ≠ t := fun hh => hx (hxt.trans hh)
        simp [removeStatusCondition, isStatusConditionTrue, hx, hxt, ht]
      · simp [removeStatusCondition, isStatusConditionTrue, hx, hxt, ih]

theorem find_set (conds : List Condition) (c : Condition) (t : String) :
    findStatusCondition (setStatusCondition conds c) t =
      if t = c.condType then some c else findStatusCondition conds t := by
  induction conds with
  | nil =>
    rcases eq_or_ne t c.condType with h | h
    · simp [setStatusCondition, findStatusCondition, h]
    · simp [setStatusCondition, findStatusCondition, h, Ne.symm h]
  | cons x rest ih =>
    rcases eq_or_ne x.condType c.condType with hx | hx
    · rcases eq_or_ne t c.condType with ht | ht
      · simp [setStatusCondition, findStatusCondition, hx, ht]
      · have hxt : x.condType ≠ t := fun hh => ht (hh.symm.trans hx)
        simp [setStatusCondition, findStatusCondition, hx, ht, hxt, Ne.symm ht]
    · rcases eq_or_ne x.condType t with hxt | hxt
      · have ht : t ≠ c.condType := fun hh => hx (hxt.trans hh)
        simp [setStatusCondition, findStatusCondition, hx, hxt, ht]
      · simp [setStatusCondition, findStatusCondition, hx, hxt, ih]

/-! ## C10 -/

/-- C10: deleteLoadBalancerConfiguration returns nil for every outcome of the
underlying Delete call — success, not-found and every other failure are all
swallowed, so a caller can never observe a failed delete. -/
theorem c10_delete_swallows_all_errors (deleteResult : DeleteOutcome) :
    deleteLoadBalancerConfiguration deleteResult = none := by
  cases deleteResult <;> rfl

/-! ## C2 -/

/-- C2 (code evaluation at the failing input): while req-a is being deleted
(deletionTimestamp set) it still carries its assignment and certificate in
status, and getGatewayCertificateARNs applies no deletionTimestamp filter, so
the re-synthesized bundle still contains — and even keeps as default — the
deleting request's certificate; the spec's live-request set holds only
req-b's certificate. -/
theorem c2_code_includes_deleting_request :
    deletingGhrA.deletionTimestampSet = true ∧
    getGatewayCertificateARNs c2Items "gw-01" "edge" =
      ["arn:aws:acm:us-east-1:1:certificate/a",
       "arn:aws:acm:us-east-1:1:certificate/b"] ∧
    specLiveCertificateIds c2Items "gw-01" "edge" =
      ["arn:aws:acm:us-east-1:1:certificate/b"] ∧
    (syncLoadBalancerConfiguration c2Items "gw-01" "edge" "internet-facing" "" "").listenerConfigurations =
      [ListenerConfiguration.https "HTTPS:443" "arn:aws:acm:us-east-1:1:certificate/a"
        (some ["arn:aws:acm:us-east-1:1:certificate/b"]),
       ListenerConfiguration.http "HTTP:80"] := by
  refine ⟨rfl, by decide, by decide, by decide⟩

/-! ## C8 -/

/-- C8 (code evaluation at the failing input): on attach the writer upserts
exactly one record, of type A (no AAAA), and on teardown it deletes exactly
one record, of type A (no AAAA). -/
theorem c8_code_writes_only_type_A :
    ((ensureRoute53Alias "gw-01" "app.opendi.com"
        benignEnv.aliasGatewayGet none).upserted.map DNSRecord.recType) = ["A"] ∧
    ((reconcileDelete c8DelEnv deletingGhrA).st.dnsDeletes.map DNSRecord.recType) = ["A"] := by
  refine ⟨by decide, by decide⟩

/-! ## C3 -/

theorem charListLe_total (as bs : List Char) :
    charListLe as bs = true ∨ charListLe bs as = true := by
  induction as generalizing bs with
  | nil => left; rfl
  | cons a as ih =>
    cases bs with
    | nil => right; rfl
    | cons b bs =>
      rcases eq_or_ne a b with hab | hab
      · subst hab
        rcases ih bs with h | h
        · left; simpa [charListLe] using h
        · right; simpa [charListLe] using h
      · rcases lt_or_gt_of_ne hab with h | h
        · left; simp [charListLe, hab, h]
        · right; simp [charListLe, Ne.symm hab, h]

theorem charListLe_trans (as bs cs : List Char)
    (h1 : charListLe as bs = true) (h2 : charListLe bs cs = true) :
    charListLe as cs = true := by
  induction as generalizing bs cs with
  | nil => rfl
  | cons a as ih =>
    cases bs with
    | nil => simp [charListLe] at h1
    | cons b bs =>
      cases cs with
      | nil => simp [charListLe] at h2
      | cons c cs =>
        rcases eq_or_ne a b with hab | hab
        · subst hab
          rcases eq_or_ne a c with hac | hac
          · subst hac
            simp only [charListLe, if_pos rfl] at h1 h2 ⊢
            exact ih bs cs h1 h2
          · simp only [charListLe, if_pos rfl] at h1
            simpa [charListLe, hac] using h2
        · rcases eq_or_ne b c with hbc | hbc
          · subst hbc
            simpa [charListLe, hab] using h1
          · have hab' : a < b := by simpa [charListLe, hab] using h1
            have hbc' : b < c := by simpa [charListLe, hbc] using h2
            have hac : a < c := lt_trans hab' hbc'
            simp [charListLe, ne_of_lt hac, hac]

theorem charListLe_antisymm (as bs : List Char)
    (h1 : charListLe as bs = true) (h2 : charListLe bs as = true) : as = bs := by
  induction as generalizing bs with
  | nil =>
    cases bs with
    | nil => rfl
    | cons b bs => simp [charListLe] at h2
  | cons a as ih =>
    cases bs with
    | nil => simp [charListLe] at h1
    | cons b bs =>
      rcases eq_or_ne a b with hab | hab
      · subst hab
        simp only [charListLe, if_pos rfl] at h1 h2
        rw [ih bs h1 h2]
      · have h1' : a < b := by simpa [charListLe, hab] using h1
        have h2' : b < a := by simpa [charListLe, Ne.symm hab] using h2
        exact absurd h1' (not_lt_of_gt h2')

/-- C3: the synthesized listener spec is a pure function of the certificate
multiset (plus scheme and WAF): permutations of the input yield an identical
spec; the empty input omits the HTTPS listener and emits only the HTTP one;
a non-empty input yields an HTTPS listener whose defaultCertificate is the
lexicographically smallest input certificate, followed by the remaining
certificates in sorted order as the SNI list (omitted when empty). -/
theorem c3_bundle_determinism (l l' : List String) (visibility wafArn : String) :
    (List.Perm l l' →
      ensureLoadBalancerConfiguration l visibility wafArn =
        ensureLoadBalancerConfiguration l' visibility wafArn) ∧
    (l = [] →
      (ensureLoadBalancerConfiguration l visibility wafArn).listenerConfigurations =
        [ListenerConfiguration.http "HTTP:80"]) ∧
    (l ≠ [] → ∃ c rest,
      List.insertionSort (fun a b : String => stringLe a b = true) l = c :: rest ∧
      (ensureLoadBalancerConfiguration l visibility wafArn).listenerConfigurations =
        [ListenerConfiguration.https "HTTPS:443" c
          (if rest.isEmpty then none else some rest),
         ListenerConfiguration.http "HTTP:80"] ∧
      c ∈ l ∧ (∀ x ∈ l, stringLe c x = true) ∧
      List.Sorted (fun a b : String => stringLe a b = true) (c :: rest) ∧
      List.Perm (c :: rest) l) := by
  haveI hTot : IsTotal String (fun a b : String => stringLe a b = true) :=
    ⟨fun a b => charListLe_total a.data b.data⟩
  haveI hTrans : IsTrans String (fun a b : String => stringLe a b = true) :=
    ⟨fun a b c h1 h2 => charListLe_trans a.data b.data c.data h1 h2⟩
  haveI hAnti : IsAntisymm String (fun a b : String => stringLe a b = true) :=
    ⟨fun a b h1 h2 => String.ext (charListLe_antisymm a.data b.data h1 h2)⟩
  refine ⟨?_, ?_, ?_⟩
  · intro hperm
    have hs : List.insertionSort (fun a b : String => stringLe a b = true) l =
        List.insertionSort (fun a b : String => stringLe a b = true) l' :=
      List.eq_of_perm_of_sorted
        (((List.perm_insertionSort _ l).trans hperm).trans
          (List.perm_insertionSort _ l').symm)
        (List.sorted_insertionSort _ l)
        (List.sorted_insertionSort _ l')
    simp only [ensureLoadBalancerConfiguration, hs]
  · intro hl
    subst hl
    rfl
  · intro hl
    rcases hsort : List.insertionSort (fun a b : String => stringLe a b = true) l
      with _ | ⟨c, rest⟩
    · have hp := List.perm_insertionSort (fun a b : String => stringLe a b = true) l
      rw [hsort] at hp
      exact absurd hp.nil_eq.symm hl
    · have hperm : List.Perm (c :: rest) l := by
        have hp := List.perm_insertionSort (fun a b : String => stringLe a b = true) l
        rwa [hsort] at hp
      have hsorted : List.Sorted (fun a b : String => stringLe a b = true) (c :: rest) := by
        have hp := List.sorted_insertionSort (fun a b : String => stringLe a b = true) l
        rwa [hsort] at hp
      refine ⟨c, rest, rfl, ?_, ?_, ?_, hsorted, hperm⟩
      · simp only [ensureLoadBalancerConfiguration, hsort]
      · exact hperm.mem_iff.mp (List.mem_cons_self c rest)
      · intro x hx
        have hx' : x ∈ c :: rest := hperm.mem_iff.mpr hx
        rcases List.mem_cons.mp hx' with h | h
        · subst h
          have := charListLe_total x.data x.data
          simpa [stringLe] using this.elim id id
        · exact (List.sorted_cons.mp hsorted).1 x h

/-- Witness for C3 at a concrete input: the permuted lists ["b", "a"] and
["a", "b"] synthesize the same spec. -/
theorem c3_witness :
    List.Perm ["b", "a"] ["a", "b"] ∧
    ensureLoadBalancerConfiguration ["b", "a"] "internet-facing" "" =
      ensureLoadBalancerConfiguration ["a", "b"] "internet-facing" "" :=
  ⟨by decide, (c3_bundle_determinism ["b", "a"] ["a", "b"] "internet-facing" "").1 (by decide)⟩

/-! ## Helper lemmas about the run state -/

theorem statusUpdate_ghr (st : St) : (statusUpdate st).snd.ghr = st.ghr := by
  cases h : st.statusUpdates <;> simp [statusUpdate, h]

theorem statusUpdate_claimCreated (st : St) :
    (statusUpdate st).snd.claimCreated = st.claimCreated := by
  cases h : st.statusUpdates <;> simp [statusUpdate, h]

theorem statusUpdate_dnsUpserts (st : St) :
    (statusUpdate st).snd.dnsUpserts = st.dnsUpserts := by
  cases h : st.statusUpdates <;> simp [statusUpdate, h]

/-! ## C5 -/

/-- C5: when the existing DomainClaim's ownerRef (namespace, name, uid)
differs from the reconciling request's, ensureDomainClaim mutates nothing and
reports a conflict, and the claim step sets Claimed False with reason
AlreadyClaimed and ends the reconcile with ctrl.Result{} and a nil error (no
requeue), leaving the request in this state until a user resolves it. -/
theorem c5_conflict_is_terminal (env : Env) (st : St) (claim : DomainClaim)
    (hGet : env.claimGet = ClaimGetResult.found claim)
    (hOwner : ¬ (claim.ownerRef.ns = st.ghr.ns ∧ claim.ownerRef.name = st.ghr.name ∧
      claim.ownerRef.uid = st.ghr.uid)) :
    ensureDomainClaim env.claimGet env.claimCreate st.ghr = (Except.ok false, none) ∧
    ∃ stOut, claimStep env st =
        StepRes.done ⟨ReconcileResult.empty, none, stOut⟩ ∧
      stOut.claimCreated = st.claimCreated ∧
      findStatusCondition stOut.ghr.status.conditions "Claimed" =
        some { condType := "Claimed", status := ConditionStatus.isFalse,
               reason := "AlreadyClaimed",
               message := "Hostname already claimed by another request",
               observedGeneration := st.ghr.generation } := by
  have hED : ensureDomainClaim env.claimGet env.claimCreate st.ghr =
      (Except.ok false, none) := by
    rw [hGet]
    simp [ensureDomainClaim, hOwner]
  refine ⟨hED, (statusUpdate (setCondition st "Claimed" ConditionStatus.isFalse
    "AlreadyClaimed" "Hostname already claimed by another request")).snd, ?_, ?_, ?_⟩
  · simp [claimStep, hED]
  · rw [statusUpdate_claimCreated]
    rfl
  · rw [statusUpdate_ghr]
    simp [setCondition, find_set]

/-! ## C7 -/

/-- C7 (against the spec-modelled ensureValidationRecords; its body is absent
from src): an empty validation-record list from the authority fails the step
with the distinct ValidationRecordsNotReady error, writes no DNS record, and
the caller sets DnsValidated False with reason PendingValidationRecords and
requeues after 15 seconds with a nil error. -/
theorem c7_empty_records_requeues (env : Env) (st : St)
    (hGate : isStatusConditionTrue st.ghr.status.conditions "DnsValidated" = false)
    (hArn : st.ghr.status.certificateArn ≠ "")
    (hFetch : env.validationFetch = Except.ok []) :
    ensureValidationRecords st.ghr.status.certificateArn env.validationFetch
        env.validationUpserts =
      (Except.error ValidationStepError.validationRecordsNotReady, []) ∧
    ∃ stOut, validationStep env st =
        StepRes.done ⟨ReconcileResult.requeueAfter 15, none, stOut⟩ ∧
      stOut.dnsUpserts = st.dnsUpserts ∧
      findStatusCondition stOut.ghr.status.conditions "DnsValidated" =
        some { condType := "DnsValidated", status := ConditionStatus.isFalse,
               reason := "PendingValidationRecords",
               message := "Waiting for ACM to provide DNS validation records",
               observedGeneration := st.ghr.generation } := by
  have hEV : ensureValidationRecords st.ghr.status.certificateArn env.validationFetch
      env.validationUpserts =
      (Except.error ValidationStepError.validationRecordsNotReady, []) := by
    rw [hFetch]
    simp [ensureValidationRecords, hArn]
  refine ⟨hEV, (statusUpdate (setCondition { st with dnsUpserts := st.dnsUpserts ++ [] }
    "DnsValidated" ConditionStatus.isFalse "PendingValidationRecords"
    "Waiting for ACM to provide DNS validation records")).snd, ?_, ?_, ?_⟩
  · simp [validationStep, hGate, hEV]
  · rw [statusUpdate_dnsUpserts]
    simp [setCondition]
  · rw [statusUpdate_ghr]
    simp [setCondition, find_set]

/-! ## C6 -/

/-- C6 (amended): when the authority reports FAILED, VALIDATION_TIMED_OUT or
REVOKED, checkCertificateStatus returns an error; the reconcile sets
CertificateIssued False with reason CheckFailed, leaves the Ready condition
untouched, and returns ctrl.Result{} together with the error — which the
work queue retries with exponential backoff (it is not a terminal
no-requeue state, and Ready is not set False). -/
theorem c6_amended (env : Env) (st : St) (d : CertificateDetails)
    (hGate : isStatusConditionTrue st.ghr.status.conditions "CertificateIssued" = false)
    (hArn : st.ghr.status.certificateArn ≠ "")
    (hDesc : env.describeCert = Except.ok d)
    (hBad : d.status = "FAILED" ∨ d.status = "VALIDATION_TIMED_OUT" ∨
      d.status = "REVOKED") :
    checkCertificateStatus st.ghr.status.certificateArn env.describeCert =
      Except.error ("certificate in failed state: " ++ d.status) ∧
    ∃ stOut, issuanceStep env st = StepRes.done
        ⟨ReconcileResult.empty, some ("certificate in failed state: " ++ d.status), stOut⟩ ∧
      findStatusCondition stOut.ghr.status.conditions "CertificateIssued" =
        some { condType := "CertificateIssued", status := ConditionStatus.isFalse,
               reason := "CheckFailed",
               message := "certificate in failed state: " ++ d.status,
               observedGeneration := st.ghr.generation } ∧
      isStatusConditionTrue stOut.ghr.status.conditions "Ready" =
        isStatusConditionTrue st.ghr.status.conditions "Ready" := by
  have hChk : checkCertificateStatus st.ghr.status.certificateArn env.describeCert =
      Except.error ("certificate in failed state: " ++ d.status) := by
    rw [hDesc]
    rcases hBad with h | h | h <;> rw [checkCertificateStatus, if_neg hArn] <;>
      simp [h]
  refine ⟨hChk, (statusUpdate (setCondition st "CertificateIssued"
    ConditionStatus.isFalse "CheckFailed"
    ("certificate in failed state: " ++ d.status))).snd, ?_, ?_, ?_⟩
  · simp [issuanceStep, hGate, hChk]
  · rw [statusUpdate_ghr]
    simp [setCondition, find_set]
  · rw [statusUpdate_ghr]
    have hne : ("Ready" : String) ≠ "CertificateIssued" := by decide
    simp [setCondition, isTrue_set, hne]

/-! ## C9 -/

theorem zone_msg_ne_waiting_msg (e x : String) :
    ("failed to get ALB hosted zone ID: " ++ e) ≠
      ("gateway " ++ x ++ " does not have LoadBalancer address yet") := by
  intro h
  have h2 := congrArg (fun s => s.data.head?) h
  simp only [String.data_append] at h2
  simp at h2

/-- C9 (amended): when the assigned gateway's ALB DNS name parses to a region
with no known ALB hosted-zone id, ensureRoute53Alias fails with the
unknown-region lookup error, and the reconcile sets DnsAliasReady False with
reason AliasFailed (not UnknownRegion) carrying that message, and returns the
error. -/
theorem c9_amended (env : Env) (st : St) (addrs : List GatewayAddress)
    (region e : String)
    (hGate : isStatusConditionTrue st.ghr.status.conditions "DnsAliasReady" = false)
    (hGw : st.ghr.status.assignedGateway ≠ "")
    (hGet : env.aliasGatewayGet = Except.ok addrs)
    (hDNS : firstHostnameAddress addrs ≠ "")
    (hRegion : ExtractRegionFromALBDNS (firstHostnameAddress addrs) = Except.ok region)
    (hZone : GetALBHostedZoneID region = Except.error e) :
    (ensureRoute53Alias st.ghr.status.assignedGateway st.ghr.spec.hostname
        env.aliasGatewayGet env.aliasUpsert).result =
      Except.error ("failed to get ALB hosted zone ID: " ++ e) ∧
    ∃ stOut, aliasStep env st = StepRes.done
        ⟨ReconcileResult.empty, some ("failed to get ALB hosted zone ID: " ++ e), stOut⟩ ∧
      findStatusCondition stOut.ghr.status.conditions "DnsAliasReady" =
        some { condType := "DnsAliasReady", status := ConditionStatus.isFalse,
               reason := "AliasFailed",
               message := "failed to get ALB hosted zone ID: " ++ e,
               observedGeneration := st.ghr.generation } := by
  have hRun : ensureRoute53Alias st.ghr.status.assignedGateway st.ghr.spec.hostname
      env.aliasGatewayGet env.aliasUpsert =
      ⟨Except.error ("failed to get ALB hosted zone ID: " ++ e), none, []⟩ := by
    rw [hGet]
    simp [ensureRoute53Alias, hGw, hDNS, hRegion, hZone]
  refine ⟨by rw [hRun], (statusUpdate (setCondition
    { st with dnsUpserts := st.dnsUpserts ++ [] } "DnsAliasReady"
    ConditionStatus.isFalse "AliasFailed"
    ("failed to get ALB hosted zone ID: " ++ e))).snd, ?_, ?_⟩
  · simp only [aliasStep, hGate, Bool.false_eq_true, if_false, hRun]
    rw [if_neg (zone_msg_ne_waiting_msg e _)]
  · rw [statusUpdate_ghr]
    simp [setCondition, find_set]

/-! ## Counterexamples and witnesses for the corrected and step claims -/

/-- C1 counterexample: a reconcile of a fully Ready request that meets a
conflicting DomainClaim persists Claimed=False with reason AlreadyClaimed
while the stale Ready=True condition remains in the same persisted status,
so Ready=True does not imply the six gate conditions after this reconcile. -/
theorem c1_counterexample :
    (isStatusConditionTrue
      (reconcileNormal conflictEnv readyGhr).st.persisted.conditions "Ready" = true) ∧
    (isStatusConditionTrue
      (reconcileNormal conflictEnv readyGhr).st.persisted.conditions "Claimed" = false) := by
  refine ⟨by decide, by decide⟩

/-- C6 counterexample: with the certificate reported FAILED, the reconcile
returns the error to the work queue (driving exponential backoff), does not
set any Ready condition, and records CertificateIssued=False with reason
CheckFailed — contradicting the claim of a terminal no-requeue state with
Ready=False. -/
theorem c6_counterexample :
    (reconcileNormal failedCertEnv pendingIssuanceGhr).err =
      some "certificate in failed state: FAILED" ∧
    (reconcileNormal failedCertEnv pendingIssuanceGhr).res = ReconcileResult.empty ∧
    findStatusCondition
      (reconcileNormal failedCertEnv pendingIssuanceGhr).st.persisted.conditions
      "Ready" = none ∧
    (findStatusCondition
      (reconcileNormal failedCertEnv pendingIssuanceGhr).st.persisted.conditions
      "CertificateIssued").map Condition.reason = some "CheckFailed" := by
  refine ⟨by decide, by decide, by decide, by decide⟩

/-- C9 counterexample: with the ALB DNS name in unknown region
mars-central-7, the persisted DnsAliasReady condition is False with reason
AliasFailed, not UnknownRegion. -/
theorem c9_counterexample :
    (findStatusCondition
      (reconcileNormal unknownRegionEnv pendingAliasGhr).st.persisted.conditions
      "DnsAliasReady").map Condition.reason = some "AliasFailed" ∧
    ¬ (findStatusCondition
      (reconcileNormal unknownRegionEnv pendingAliasGhr).st.persisted.conditions
      "DnsAliasReady").map Condition.reason = some "UnknownRegion" ∧
    (findStatusCondition
      (reconcileNormal unknownRegionEnv pendingAliasGhr).st.persisted.conditions
      "DnsAliasReady").map Condition.status = some ConditionStatus.isFalse := by
  refine ⟨by decide, by decide⟩

/-- Witness for C5: two concrete requests contending for app.opendi.com. -/
theorem c5_witness :
    conflictEnv.claimGet = ClaimGetResult.found otherOwnerClaim ∧
    ¬ (otherOwnerClaim.ownerRef.ns = (mkSt readyGhr []).ghr.ns ∧
       otherOwnerClaim.ownerRef.name = (mkSt readyGhr []).ghr.name ∧
       otherOwnerClaim.ownerRef.uid = (mkSt readyGhr []).ghr.uid) ∧
    (ensureDomainClaim conflictEnv.claimGet conflictEnv.claimCreate
        (mkSt readyGhr []).ghr = (Except.ok false, none) ∧
     ∃ stOut, claimStep conflictEnv (mkSt readyGhr []) =
         StepRes.done ⟨ReconcileResult.empty, none, stOut⟩ ∧
       stOut.claimCreated = (mkSt readyGhr []).claimCreated ∧
       findStatusCondition stOut.ghr.status.conditions "Claimed" =
         some { condType := "Claimed", status := ConditionStatus.isFalse,
                reason := "AlreadyClaimed",
                message := "Hostname already claimed by another request",
                observedGeneration := (mkSt readyGhr []).ghr.generation }) :=
  ⟨rfl, by decide,
    c5_conflict_is_terminal conflictEnv (mkSt readyGhr []) otherOwnerClaim rfl (by decide)⟩

/-- Witness for C7 at a concrete request whose authority returns no
validation records. -/
theorem c7_witness :
    isStatusConditionTrue (mkSt pendingValidationGhr []).ghr.status.conditions
      "DnsValidated" = false ∧
    (mkSt pendingValidationGhr []).ghr.status.certificateArn ≠ "" ∧
    emptyRecordsEnv.validationFetch = Except.ok [] ∧
    (ensureValidationRecords (mkSt pendingValidationGhr []).ghr.status.certificateArn
        emptyRecordsEnv.validationFetch emptyRecordsEnv.validationUpserts =
      (Except.error ValidationStepError.validationRecordsNotReady, []) ∧
     ∃ stOut, validationStep emptyRecordsEnv (mkSt pendingValidationGhr []) =
         StepRes.done ⟨ReconcileResult.requeueAfter 15, none, stOut⟩ ∧
       stOut.dnsUpserts = (mkSt pendingValidationGhr []).dnsUpserts ∧
       findStatusCondition stOut.ghr.status.conditions "DnsValidated" =
         some { condType := "DnsValidated", status := ConditionStatus.isFalse,
                reason := "PendingValidationRecords",
                message := "Waiting for ACM to provide DNS validation records",
                observedGeneration := (mkSt pendingValidationGhr []).ghr.generation }) :=
  ⟨by decide, by decide, rfl,
    c7_empty_records_requeues emptyRecordsEnv (mkSt pendingValidationGhr [])
      (by decide) (by decide) rfl⟩

/-- Witness for C6 (amended) at a concrete FAILED certificate. -/
theorem c6_amended_witness :
    isStatusConditionTrue (mkSt pendingIssuanceGhr []).ghr.status.conditions
      "CertificateIssued" = false ∧
    (mkSt pendingIssuanceGhr []).ghr.status.certificateArn ≠ "" ∧
    failedCertEnv.describeCert =
      Except.ok ({ status := "FAILED", inUseBy := [] } : CertificateDetails) ∧
    (checkCertificateStatus (mkSt pendingIssuanceGhr []).ghr.status.certificateArn
        failedCertEnv.describeCert =
      Except.error ("certificate in failed state: " ++ "FAILED") ∧
     ∃ stOut, issuanceStep failedCertEnv (mkSt pendingIssuanceGhr []) = StepRes.done
         ⟨ReconcileResult.empty, some ("certificate in failed state: " ++ "FAILED"), stOut⟩ ∧
       findStatusCondition stOut.ghr.status.conditions "CertificateIssued" =
         some { condType := "CertificateIssued", status := ConditionStatus.isFalse,
                reason := "CheckFailed",
                message := "certificate in failed state: " ++ "FAILED",
                observedGeneration := (mkSt pendingIssuanceGhr []).ghr.generation } ∧
       isStatusConditionTrue stOut.ghr.status.conditions "Ready" =
         isStatusConditionTrue (mkSt pendingIssuanceGhr []).ghr.status.conditions
           "Ready") :=
  ⟨by decide, by decide, rfl,
    c6_amended failedCertEnv (mkSt pendingIssuanceGhr [])
      { status := "FAILED", inUseBy := [] } (by decide) (by decide) rfl
      (Or.inl rfl)⟩

/-- Witness for C9 (amended) at the concrete unknown region mars-central-7. -/
theorem c9_amended_witness :
    isStatusConditionTrue (mkSt pendingAliasGhr []).ghr.status.conditions
      "DnsAliasReady" = false ∧
    (mkSt pendingAliasGhr []).ghr.status.assignedGateway ≠ "" ∧
    unknownRegionEnv.aliasGatewayGet = Except.ok unknownRegionAddresses ∧
    firstHostnameAddress unknownRegionAddresses ≠ "" ∧
    ExtractRegionFromALBDNS (firstHostnameAddress unknownRegionAddresses) =
      Except.ok "mars-central-7" ∧
    GetALBHostedZoneID "mars-central-7" =
      Except.error "unknown region: mars-central-7 (ALB hosted zone ID not found)" ∧
    ((ensureRoute53Alias (mkSt pendingAliasGhr []).ghr.status.assignedGateway
        (mkSt pendingAliasGhr []).ghr.spec.hostname
        unknownRegionEnv.aliasGatewayGet unknownRegionEnv.aliasUpsert).result =
      Except.error ("failed to get ALB hosted zone ID: " ++
        "unknown region: mars-central-7 (ALB hosted zone ID not found)") ∧
     ∃ stOut, aliasStep unknownRegionEnv (mkSt pendingAliasGhr []) = StepRes.done
         ⟨ReconcileResult.empty, some ("failed to get ALB hosted zone ID: " ++
           "unknown region: mars-central-7 (ALB hosted zone ID not found)"), stOut⟩ ∧
       findStatusCondition stOut.ghr.status.conditions "DnsAliasReady" =
         some { condType := "DnsAliasReady", status := ConditionStatus.isFalse,
                reason := "AliasFailed",
                message := "failed to get ALB hosted zone ID: " ++
                  "unknown region: mars-central-7 (ALB hosted zone ID not found)",
                observedGeneration := (mkSt pendingAliasGhr []).ghr.generation }) :=
  ⟨by decide, by decide, rfl, by decide, rfl, rfl,
    c9_amended unknownRegionEnv (mkSt pendingAliasGhr []) unknownRegionAddresses
      "mars-central-7" "unknown region: mars-central-7 (ALB hosted zone ID not found)"
      (by decide) (by decide) rfl (by decide) rfl rfl⟩

/-! ## C4 -/

theorem dStatusUpdate_ghr (st : DSt) : (dStatusUpdate st).snd.ghr = st.ghr := by
  cases h : st.statusUpdates <;> simp [dStatusUpdate, h]

theorem dStatusUpdate_certDeleteAttempted (st : DSt) :
    (dStatusUpdate st).snd.certDeleteAttempted = st.certDeleteAttempted := by
  cases h : st.statusUpdates <;> simp [dStatusUpdate, h]

theorem dStatusUpdate_finalizerRemoved (st : DSt) :
    (dStatusUpdate st).snd.finalizerRemoved = st.finalizerRemoved := by
  cases h : st.statusUpdates <;> simp [dStatusUpdate, h]

set_option maxHeartbeats 1000000 in
theorem delBestEffort_preserves (env : DelEnv) (st : DSt) :
    (delBestEffort env st).ghr.status.certificateArn = st.ghr.status.certificateArn ∧
    (delBestEffort env st).ghr.finalizers = st.ghr.finalizers ∧
    (delBestEffort env st).certDeleteAttempted = st.certDeleteAttempted ∧
    (delBestEffort env st).finalizerRemoved = st.finalizerRemoved := by
  unfold delBestEffort
  dsimp only []
  generalize hs1 : (dStatusUpdate (dSetCondition st "Deleting" ConditionStatus.isTrue
    "DeletionInProgress" "Cleanup in progress")).snd = s1
  have hGhr : s1.ghr = (dSetCondition st "Deleting" ConditionStatus.isTrue
      "DeletionInProgress" "Cleanup in progress").ghr := by
    rw [← hs1, dStatusUpdate_ghr]
  have hArn : s1.ghr.status.certificateArn = st.ghr.status.certificateArn := by
    rw [hGhr]; rfl
  have hFin : s1.ghr.finalizers = st.ghr.finalizers := by
    rw [hGhr]; rfl
  have hCda : s1.certDeleteAttempted = st.certDeleteAttempted := by
    rw [← hs1, dStatusUpdate_certDeleteAttempted]; rfl
  have hFr : s1.finalizerRemoved = st.finalizerRemoved := by
    rw [← hs1, dStatusUpdate_finalizerRemoved]; rfl
  repeat' split
  all_goals exact ⟨hArn, hFin, hCda, hFr⟩

theorem finishDelete_certDeleteAttempted (env : DelEnv) (st : DSt) :
    (finishDelete env st).snd.certDeleteAttempted = st.certDeleteAttempted := by
  unfold finishDelete
  split <;> rfl

theorem delReleaseClaim_certDeleteAttempted (env : DelEnv) (st : DSt) :
    (delReleaseClaim env st).certDeleteAttempted = st.certDeleteAttempted := by
  unfold delReleaseClaim
  repeat' split
  all_goals rfl

theorem cleanupEmptyGateway_certDeleteAttempted (env : DelEnv) (st : DSt) :
    (cleanupEmptyGateway env st).fst.certDeleteAttempted = st.certDeleteAttempted := by
  unfold cleanupEmptyGateway
  dsimp only []
  repeat' split
  all_goals rfl

set_option maxHeartbeats 1000000 in
theorem delTail_certDeleteAttempted (env : DelEnv) (st : DSt) :
    (delTail env st).st.certDeleteAttempted = st.certDeleteAttempted := by
  unfold delTail
  dsimp only []
  generalize h1 : delReleaseClaim env st = s1
  have e1 : s1.certDeleteAttempted = st.certDeleteAttempted := by
    rw [← h1, delReleaseClaim_certDeleteAttempted]
  split
  · generalize h2 : cleanupEmptyGateway env s1 = c
    have e2 : c.fst.certDeleteAttempted = s1.certDeleteAttempted := by
      rw [← h2, cleanupEmptyGateway_certDeleteAttempted]
    repeat' split
    all_goals
      simp only [finishDelete_certDeleteAttempted, dStatusUpdate_certDeleteAttempted]
    all_goals rw [← e1, ← e2]
  · repeat' split
    all_goals
      simp only [finishDelete_certDeleteAttempted, dStatusUpdate_certDeleteAttempted]
    all_goals exact e1

/-- C4 (amended): while DescribeCertificate succeeds and reports a non-empty
inUseBy, the teardown requeues after 15 seconds with a nil error, the
certificate not deleted and the finalizer still present; when it reports
inUseBy empty, the certificate deletion is performed.  (When the describe
call itself fails, the code proceeds to a best-effort deletion instead —
see the counterexample.) -/
theorem c4_amended (env : DelEnv) (ghr : GatewayHostnameRequest)
    (d : CertificateDetails)
    (hFin : ghr.finalizers.contains FinalizerName = true)
    (hArn : ghr.status.certificateArn ≠ "")
    (hDesc : env.describeCert = Except.ok d) :
    (d.inUseBy ≠ [] →
      (reconcileDelete env ghr).res = ReconcileResult.requeueAfter 15 ∧
      (reconcileDelete env ghr).err = none ∧
      (reconcileDelete env ghr).st.certDeleteAttempted = false ∧
      (reconcileDelete env ghr).st.finalizerRemoved = false ∧
      (reconcileDelete env ghr).st.ghr.finalizers = ghr.finalizers) ∧
    (d.inUseBy = [] →
      (reconcileDelete env ghr).st.certDeleteAttempted = true) := by
  unfold reconcileDelete
  rw [if_neg (not_not_intro hFin)]
  generalize hs1 : delBestEffort env
    { ghr := ghr, persisted := ghr.status, dnsDeletes := [],
      certDeleteAttempted := false, lbcWritten := none, lbcDeleted := false,
      gatewayDeleted := false, claimDeleted := false, finalizerRemoved := false,
      statusUpdates := env.statusUpdates } = s1
  have hpres := delBestEffort_preserves env
    { ghr := ghr, persisted := ghr.status, dnsDeletes := [],
      certDeleteAttempted := false, lbcWritten := none, lbcDeleted := false,
      gatewayDeleted := false, claimDeleted := false, finalizerRemoved := false,
      statusUpdates := env.statusUpdates }
  rw [hs1] at hpres
  obtain ⟨hArn1, hFin1, hCda1, hFr1⟩ := hpres
  constructor
  · intro hBusy
    have hInUse : delInUse env s1 = true := by
      unfold delInUse
      rw [if_pos (by rw [hArn1]; exact hArn), hDesc]
      simpa using hBusy
    rw [if_pos hInUse]
    refine ⟨rfl, rfl, ?_, ?_, ?_⟩
    · rw [dStatusUpdate_certDeleteAttempted]
      rw [show (dSetCondition s1 "Deleting" ConditionStatus.isTrue
        "WaitingForCertDetachment"
        "Waiting for ALB to detach certificate").certDeleteAttempted =
        s1.certDeleteAttempted from rfl]
      exact hCda1
    · rw [dStatusUpdate_finalizerRemoved]
      rw [show (dSetCondition s1 "Deleting" ConditionStatus.isTrue
        "WaitingForCertDetachment"
        "Waiting for ALB to detach certificate").finalizerRemoved =
        s1.finalizerRemoved from rfl]
      exact hFr1
    · rw [dStatusUpdate_ghr]
      rw [show (dSetCondition s1 "Deleting" ConditionStatus.isTrue
        "WaitingForCertDetachment"
        "Waiting for ALB to detach certificate").ghr.finalizers =
        s1.ghr.finalizers from rfl]
      exact hFin1
  · intro hFree
    have hInUse : delInUse env s1 = false := by
      unfold delInUse
      rw [if_pos (by rw [hArn1]; exact hArn), hDesc]
      simp [hFree]
    rw [if_neg (by simp [hInUse])]
    rw [if_pos (by rw [hArn1]; exact hArn)]
    rw [delTail_certDeleteAttempted]

/-- C4 counterexample: when the in-use check itself fails (DescribeCertificate
errors), the teardown does not wait: it calls DeleteCertificate anyway and
releases the finalizer in the same reconcile, so the certificate can be
deleted without inUseBy ever being observed empty. -/
theorem c4_counterexample :
    c4ErrEnv.describeCert = Except.error "describe outage" ∧
    (reconcileDelete c4ErrEnv deletingGhrA).st.certDeleteAttempted = true ∧
    (reconcileDelete c4ErrEnv deletingGhrA).st.finalizerRemoved = true ∧
    (reconcileDelete c4ErrEnv deletingGhrA).err = none := by
  refine ⟨rfl, by decide, by decide, by decide⟩

/-- Witness for C4 (amended) at a concrete certificate still in use. -/
theorem c4_amended_witness :
    deletingGhrA.finalizers.contains FinalizerName = true ∧
    deletingGhrA.status.certificateArn ≠ "" ∧
    c4BusyEnv.describeCert = Except.ok busyCertDetails ∧
    ((busyCertDetails.inUseBy ≠ [] →
      (reconcileDelete c4BusyEnv deletingGhrA).res = ReconcileResult.requeueAfter 15 ∧
      (reconcileDelete c4BusyEnv deletingGhrA).err = none ∧
      (reconcileDelete c4BusyEnv deletingGhrA).st.certDeleteAttempted = false ∧
      (reconcileDelete c4BusyEnv deletingGhrA).st.finalizerRemoved = false ∧
      (reconcileDelete c4BusyEnv deletingGhrA).st.ghr.finalizers =
        deletingGhrA.finalizers) ∧
     (busyCertDetails.inUseBy = [] →
      (reconcileDelete c4BusyEnv deletingGhrA).st.certDeleteAttempted = true)) :=
  ⟨by decide, by decide, rfl,
    c4_amended c4BusyEnv deletingGhrA busyCertDetails (by decide) (by decide) rfl⟩

/-! ## C1: invariant lemmas -/

theorem statusUpdate_persisted (st : St) :
    (statusUpdate st).snd.persisted = st.ghr.status ∨
    (statusUpdate st).snd.persisted = st.persisted := by
  cases h : st.statusUpdates with
  | nil => left; simp [statusUpdate, h]
  | cons b rest => cases b <;> simp [statusUpdate, h]

theorem statusInv_update_transport (st : St)
    (h1 : StatusInv st.ghr.status) (h2 : StatusInv st.persisted) :
    StatusInv (statusUpdate st).snd.persisted := by
  rcases statusUpdate_persisted st with h | h <;> rw [h] <;> assumption

/-- Setting a non-Ready gate condition to a new value preserves StatusInv
provided the gate was not True before (its in-run failure form). -/
theorem statusInv_set_gate_false (s : GatewayHostnameRequestStatus)
    (c : Condition) (hInv : StatusInv s)
    (hNotReady : c.condType ≠ "Ready")
    (hGateFalse : isStatusConditionTrue s.conditions c.condType = false)
    (hGate : c.condType = "Claimed" ∨ c.condType = "CertificateRequested" ∨
      c.condType = "DnsValidated" ∨ c.condType = "CertificateIssued" ∨
      c.condType = "ListenerAttached" ∨ c.condType = "DnsAliasReady") :
    StatusInv { s with conditions := setStatusCondition s.conditions c } := by
  constructor
  · intro hR
    rw [show ({ s with conditions := setStatusCondition s.conditions c } :
      GatewayHostnameRequestStatus).conditions = setStatusCondition s.conditions c
      from rfl] at hR
    rw [isTrue_set, if_neg (fun hh => hNotReady hh.symm)] at hR
    have hGates := (hInv.1 hR).1
    obtain ⟨g1, g2, g3, g4, g5, g6⟩ := hGates
    rcases hGate with h | h | h | h | h | h <;> rw [h] at hGateFalse <;>
      simp_all
  · intro hA
    have hCR := hInv.2 hA
    show isStatusConditionTrue (setStatusCondition s.conditions c)
      "CertificateRequested" = true
    rw [isTrue_set]
    rcases eq_or_ne ("CertificateRequested" : String) c.condType with he | he
    · rw [← he] at hGateFalse
      rw [hCR] at hGateFalse
      exact absurd hGateFalse (by decide)
    · rw [if_neg he]
      exact hCR

/-- Setting a non-Ready condition to True preserves StatusInv. -/
theorem statusInv_set_true (s : GatewayHostnameRequestStatus)
    (c : Condition) (hInv : StatusInv s)
    (hNotReady : c.condType ≠ "Ready")
    (hTrue : c.status = ConditionStatus.isTrue) :
    StatusInv { s with conditions := setStatusCondition s.conditions c } := by
  have hval : ∀ t : String, isStatusConditionTrue (setStatusCondition s.conditions c) t =
      true ↔ (t = c.condType ∨ isStatusConditionTrue s.conditions t = true) := by
    intro t
    rw [isTrue_set]
    rcases eq_or_ne t c.condType with he | he
    · simp [he, hTrue]
    · simp [he]
  constructor
  · intro hR
    have hR' : isStatusConditionTrue s.conditions "Ready" = true := by
      rcases (hval "Ready").mp hR with h | h
      · exact absurd h.symm hNotReady
      · exact h
    obtain ⟨⟨g1, g2, g3, g4, g5, g6⟩, hA⟩ := hInv.1 hR'
    exact ⟨⟨(hval "Claimed").mpr (Or.inr g1),
      (hval "CertificateRequested").mpr (Or.inr g2),
      (hval "DnsValidated").mpr (Or.inr g3),
      (hval "CertificateIssued").mpr (Or.inr g4),
      (hval "ListenerAttached").mpr (Or.inr g5),
      (hval "DnsAliasReady").mpr (Or.inr g6)⟩, hA⟩
  · intro hA
    exact (hval "CertificateRequested").mpr (Or.inr (hInv.2 hA))

/-- Setting the Ready condition to False yields a StatusInv status. -/
theorem statusInv_set_ready_false (s : GatewayHostnameRequestStatus)
    (c : Condition) (hInv : StatusInv s)
    (hType : c.condType = "Ready") (hFalse : c.status = ConditionStatus.isFalse) :
    StatusInv { s with conditions := setStatusCondition s.conditions c } := by
  constructor
  · intro hR
    rw [show ({ s with conditions := setStatusCondition s.conditions c} :
      GatewayHostnameRequestStatus).conditions = setStatusCondition s.conditions c
      from rfl, isTrue_set, if_pos hType.symm, hFalse] at hR
    exact absurd hR (by decide)
  · intro hA
    have hCR := hInv.2 hA
    show isStatusConditionTrue (setStatusCondition s.conditions c)
      "CertificateRequested" = true
    rw [isTrue_set, if_neg (by rw [hType]; decide)]
    exact hCR

theorem specDrift_done (st : St) (out : RunOut)
    (_h1 : StatusInv st.ghr.status) (h2 : StatusInv st.persisted)
    (heq : specDriftStep st = StepRes.done out) : StatusInv out.st.persisted := by
  have hcle : StatusInv
      ({ observedGeneration := 0, observedSpecHash := "", certificateArn := "",
         assignedGateway := "", assignedGatewayNamespace := "",
         assignedLoadBalancer := "", conditions := [] } :
        GatewayHostnameRequestStatus) :=
    ⟨fun hR => absurd hR (by decide), fun hA => absurd rfl hA⟩
  unfold specDriftStep at heq
  dsimp only [] at heq
  split at heq
  · split at heq <;> cases heq <;>
      exact statusInv_update_transport _ hcle h2
  · cases heq

theorem specDrift_next (st st' : St)
    (heq : specDriftStep st = StepRes.next st') : st' = st := by
  unfold specDriftStep at heq
  dsimp only [] at heq
  split at heq
  · split at heq <;> cases heq
  · cases heq; rfl

/-- Rebuild MidInv for a state whose Ready condition is gone and whose
CertificateRequested implication is re-established, with identity fields and
the persisted status untouched. -/
theorem midInv_removed (e : GatewayHostnameRequest) (st : St) (h : MidInv e st)
    (st' : St)
    (hconds : isStatusConditionTrue st'.ghr.status.conditions "Ready" = false)
    (hCR : st'.ghr.status.certificateArn ≠ "" →
      isStatusConditionTrue st'.ghr.status.conditions "CertificateRequested" = true)
    (hpers : st'.persisted = st.persisted)
    (hf1 : st'.ghr.name = st.ghr.name) (hf2 : st'.ghr.ns = st.ghr.ns)
    (hf3 : st'.ghr.uid = st.ghr.uid) (hf4 : st'.ghr.spec = st.ghr.spec)
    (hf5 : st'.ghr.generation = st.ghr.generation) :
    MidInv e st' := by
  obtain ⟨hi, hp, hn, hns, hu, hs, hg, hm⟩ := h
  refine ⟨⟨fun hR => ?_, fun hA => hCR hA⟩, ?_, hf1.trans hn, hf2.trans hns,
    hf3.trans hu, hf4.trans hs, hf5.trans hg, fun hR => ?_⟩
  · rw [hconds] at hR
    exact absurd hR (by decide)
  · rw [hpers]; exact hp
  · rw [hconds] at hR
    exact absurd hR (by decide)

theorem midInv_statusUpdate (e : GatewayHostnameRequest) (st : St)
    (h : MidInv e st) : MidInv e (statusUpdate st).snd := by
  obtain ⟨hi, hp, hn, hns, hu, hs, hg, hm⟩ := h
  refine ⟨?_, statusInv_update_transport st hi hp, ?_, ?_, ?_, ?_, ?_, ?_⟩ <;>
    rw [statusUpdate_ghr]
  · exact hi
  · exact hn
  · exact hns
  · exact hu
  · exact hs
  · exact hg
  · exact hm

theorem driftCheckGateway_midInv (env : Env) (e : GatewayHostnameRequest)
    (st : St) (h : MidInv e st) : MidInv e (driftCheckGateway env st).fst := by
  unfold driftCheckGateway
  dsimp only []
  obtain ⟨hi, hp, hn, hns, hu, hs, hg, hm⟩ := h
  split
  · split
    · refine midInv_removed e st ⟨hi, hp, hn, hns, hu, hs, hg, hm⟩ _ ?_ ?_ rfl rfl rfl rfl rfl rfl
      · simp [removeCondition, isTrue_remove]
      · intro hA
        simp only [removeCondition] at hA ⊢
        simp only [isTrue_remove]
        norm_num
        exact ⟨by decide, by decide, by decide, hi.2 hA⟩
    · exact ⟨hi, hp, hn, hns, hu, hs, hg, hm⟩
    · split
      · refine midInv_removed e st ⟨hi, hp, hn, hns, hu, hs, hg, hm⟩ _ ?_ ?_ rfl rfl rfl rfl rfl rfl
        · simp [removeCondition, isTrue_remove]
        · intro hA
          simp only [removeCondition] at hA ⊢
          simp only [isTrue_remove]
          norm_num
          exact ⟨by decide, by decide, by decide, hi.2 hA⟩
      · exact ⟨hi, hp, hn, hns, hu, hs, hg, hm⟩
  · exact ⟨hi, hp, hn, hns, hu, hs, hg, hm⟩

set_option maxHeartbeats 8000000 in
theorem driftCheckCertificate_midInv (env : Env) (e : GatewayHostnameRequest)
    (st : St) (h : MidInv e st) : MidInv e (driftCheckCertificate env st).fst := by
  unfold driftCheckCertificate
  dsimp only []
  obtain ⟨hi, hp, hn, hns, hu, hs, hg, hm⟩ := h
  split
  · split
    · apply midInv_removed e st ⟨hi, hp, hn, hns, hu, hs, hg, hm⟩
      · simp [removeCondition, isTrue_remove]
      · intro hA
        exact absurd rfl hA
      · rfl
      · rfl
      · rfl
      · rfl
      · rfl
      · rfl
    · split
      · apply midInv_removed e st ⟨hi, hp, hn, hns, hu, hs, hg, hm⟩
        · simp [removeCondition, isTrue_remove]
        · intro hA
          exact absurd rfl hA
        · rfl
        · rfl
        · rfl
        · rfl
        · rfl
        · rfl
      · exact ⟨hi, hp, hn, hns, hu, hs, hg, hm⟩
  · exact ⟨hi, hp, hn, hns, hu, hs, hg, hm⟩

theorem validateAssignedResources_midInv (env : Env) (e : GatewayHostnameRequest)
    (st : St) (h : MidInv e st) :
    MidInv e (validateAssignedResources env st).fst := by
  unfold validateAssignedResources
  dsimp only []
  have h1 := driftCheckGateway_midInv env e st h
  have h2 := driftCheckCertificate_midInv env e _ h1
  split
  · split <;> exact midInv_statusUpdate e _ h2
  · exact h2

/-- The ResourceValidationError block preserves MidInv. -/
theorem midInv_rve (e : GatewayHostnameRequest) (st : St) (m : String)
    (h : MidInv e st) :
    MidInv e (statusUpdate (setCondition st "ResourceValidationError"
      ConditionStatus.isTrue "ValidationFailed"
      ("Validation error (will auto-correct): " ++ m))).snd := by
  obtain ⟨hi, hp, hn, hns, hu, hs, hg, hm⟩ := h
  apply midInv_statusUpdate
  refine ⟨?_, hp, hn, hns, hu, hs, hg, fun hR => hm ?_⟩
  · exact statusInv_set_true st.ghr.status
      { condType := "ResourceValidationError", status := ConditionStatus.isTrue,
        reason := "ValidationFailed",
        message := "Validation error (will auto-correct): " ++ m,
        observedGeneration := st.ghr.generation } hi (by intro hc; simp at hc) rfl
  · simp only [setCondition] at hR
    rw [isTrue_set] at hR
    rw [if_neg (by intro hc; simp at hc)] at hR
    exact hR

/-- ensureDomainClaim only reads the owner identity and the spec of the
request. -/
theorem ensureDomainClaim_congr (g : ClaimGetResult) (c : ClaimCreateResult)
    (a b : GatewayHostnameRequest) (hns : a.ns = b.ns) (hn : a.name = b.name)
    (hu : a.uid = b.uid) (hs : a.spec = b.spec) :
    ensureDomainClaim g c a = ensureDomainClaim g c b := by
  cases g <;> cases c <;> simp [ensureDomainClaim, hns, hn, hu, hs]

/-- Setting any non-Ready condition (to any value) preserves StatusInv when
Ready is currently not True, provided the CertificateRequested condition is
only touched while no certificate is recorded. -/
theorem statusInv_set_false_no_ready (s : GatewayHostnameRequestStatus)
    (c : Condition) (hInv : StatusInv s)
    (hNotReady : c.condType ≠ "Ready")
    (hReadyFalse : isStatusConditionTrue s.conditions "Ready" = false)
    (hCR : c.condType = "CertificateRequested" → s.certificateArn = "") :
    StatusInv { s with conditions := setStatusCondition s.conditions c } := by
  constructor
  · intro hR
    rw [show ({ s with conditions := setStatusCondition s.conditions c } :
      GatewayHostnameRequestStatus).conditions = setStatusCondition s.conditions c
      from rfl, isTrue_set, if_neg (fun hh => hNotReady hh.symm), hReadyFalse] at hR
    exact absurd hR (by decide)
  · intro hA
    have hCRt := hInv.2 hA
    show isStatusConditionTrue (setStatusCondition s.conditions c)
      "CertificateRequested" = true
    rw [isTrue_set]
    rcases eq_or_ne ("CertificateRequested" : String) c.condType with he | he
    · exact absurd (hCR he.symm) hA
    · rw [if_neg he]
      exact hCRt

/-- Recording a certificate ARN together with CertificateRequested=True
yields a StatusInv status whenever Ready is currently not True. -/
theorem statusInv_set_cr_true (s : GatewayHostnameRequestStatus) (a : String)
    (c : Condition) (hType : c.condType = "CertificateRequested")
    (hTrue : c.status = ConditionStatus.isTrue)
    (hReadyFalse : isStatusConditionTrue s.conditions "Ready" = false) :
    StatusInv { s with
      certificateArn := a,
      conditions := setStatusCondition s.conditions c } := by
  constructor
  · intro hR
    rw [show ({ s with
      certificateArn := a,
      conditions := setStatusCondition s.conditions c } :
      GatewayHostnameRequestStatus).conditions = setStatusCondition s.conditions c
      from rfl, isTrue_set, if_neg (by rw [hType]; decide), hReadyFalse] at hR
    exact absurd hR (by decide)
  · intro _
    show isStatusConditionTrue (setStatusCondition s.conditions c)
      "CertificateRequested" = true
    rw [isTrue_set, if_pos hType.symm, hTrue]
    rfl

theorem claimStep_c1_done (env : Env) (e : GatewayHostnameRequest) (st : St)
    (out : RunOut) (hm : MidInv e st)
    (hClaim : isStatusConditionTrue e.status.conditions "Ready" = true →
      (ensureDomainClaim env.claimGet env.claimCreate e).fst = Except.ok true)
    (h : claimStep env st = StepRes.done out) : StatusInv out.st.persisted := by
  obtain ⟨hi, hp, hn, hns, hu, hs, hg, hrm⟩ := hm
  have hcongr : ensureDomainClaim env.claimGet env.claimCreate st.ghr =
      ensureDomainClaim env.claimGet env.claimCreate e :=
    ensureDomainClaim_congr _ _ _ _ hns hn hu hs
  unfold claimStep at h
  rcases hE : ensureDomainClaim env.claimGet env.claimCreate st.ghr with ⟨r, cr⟩
  rw [hE] at h
  have hready : ∀ b : Except String Bool, r = b → b ≠ Except.ok true →
      isStatusConditionTrue st.ghr.status.conditions "Ready" = false := by
    intro b hb hne
    rcases Bool.eq_false_or_eq_true
      (isStatusConditionTrue st.ghr.status.conditions "Ready") with hx | hx
    · exfalso
      have h2 := hClaim (hrm hx)
      rw [← hcongr, hE] at h2
      exact hne (hb ▸ h2)
    · exact hx
  rcases r with m | b
  · dsimp only [] at h
    injection h with h2
    subst h2
    exact statusInv_update_transport _
      (statusInv_set_false_no_ready st.ghr.status _ hi (by intro hc; simp at hc)
        (hready _ rfl (by intro hc; cases hc)) (by intro hc; simp at hc)) hp
  · cases b
    · dsimp only [] at h
      injection h with h2
      subst h2
      exact statusInv_update_transport _
        (statusInv_set_false_no_ready st.ghr.status _ hi (by intro hc; simp at hc)
          (hready _ rfl (by intro hc; injection hc with hc2; cases hc2))
          (by intro hc; simp at hc)) hp
    · dsimp only [] at h
      cases h

theorem claimStep_c1_next (env : Env) (e : GatewayHostnameRequest) (st st' : St)
    (hm : MidInv e st) (h : claimStep env st = StepRes.next st') :
    MidInv e st' ∧
    isStatusConditionTrue st'.ghr.status.conditions "Claimed" = true ∧
    (∀ t, t ≠ "Claimed" → isStatusConditionTrue st'.ghr.status.conditions t =
      isStatusConditionTrue st.ghr.status.conditions t) ∧
    st'.ghr.status.certificateArn = st.ghr.status.certificateArn := by
  obtain ⟨hi, hp, hn, hns, hu, hs, hg, hrm⟩ := hm
  unfold claimStep at h
  rcases hE : ensureDomainClaim env.claimGet env.claimCreate st.ghr with ⟨r, cr⟩
  rw [hE] at h
  rcases r with m | b
  · dsimp only [] at h; cases h
  · cases b
    · dsimp only [] at h; cases h
    · dsimp only [] at h
      injection h with h2
      subst h2
      have hother : ∀ t, t ≠ "Claimed" →
          isStatusConditionTrue (setStatusCondition st.ghr.status.conditions
            { condType := "Claimed", status := ConditionStatus.isTrue,
              reason := "Claimed", message := "Domain successfully claimed",
              observedGeneration := st.ghr.generation }) t =
          isStatusConditionTrue st.ghr.status.conditions t := by
        intro t ht
        rw [isTrue_set, if_neg (by simpa using ht)]
      refine ⟨⟨?_, hp, hn, hns, hu, hs, hg, ?_⟩, ?_, ?_, rfl⟩
      · exact statusInv_set_true st.ghr.status _ hi (by intro hc; simp at hc) rfl
      · intro hR
        rw [show (setCondition { st with claimCreated := cr } "Claimed"
          ConditionStatus.isTrue "Claimed"
          "Domain successfully claimed").ghr.status.conditions =
          setStatusCondition st.ghr.status.conditions
            { condType := "Claimed", status := ConditionStatus.isTrue,
              reason := "Claimed", message := "Domain successfully claimed",
              observedGeneration := st.ghr.generation } from rfl,
          hother "Ready" (by decide)] at hR
        exact hrm hR
      · show isStatusConditionTrue (setStatusCondition st.ghr.status.conditions _)
          "Claimed" = true
        rw [isTrue_set, if_pos rfl]
        rfl
      · intro t ht
        exact hother t ht

theorem certStep_c1_done (env : Env) (e : GatewayHostnameRequest) (st : St)
    (out : RunOut) (hm : MidInv e st)
    (h : certStep env st = StepRes.done out) : StatusInv out.st.persisted := by
  obtain ⟨hi, hp, hn, hns, hu, hs, hg, hrm⟩ := hm
  unfold certStep at h
  by_cases hA : st.ghr.status.certificateArn = ""
  · rw [if_pos hA] at h
    have hRF : isStatusConditionTrue st.ghr.status.conditions "Ready" = false := by
      rcases Bool.eq_false_or_eq_true
        (isStatusConditionTrue st.ghr.status.conditions "Ready") with hx | hx
      · exact absurd hA (hi.1 hx).2
      · exact hx
    rcases hrc : env.requestCert with m | a
    · rw [hrc] at h
      dsimp only [] at h
      injection h with h2
      subst h2
      exact statusInv_update_transport _
        (statusInv_set_false_no_ready st.ghr.status _ hi (by intro hc; simp at hc)
          hRF (fun _ => hA)) hp
    · rw [hrc] at h
      dsimp only [] at h
      split at h
      · cases h
      · injection h with h2
        subst h2
        exact statusInv_update_transport _
          (statusInv_set_cr_true st.ghr.status a _ rfl rfl hRF) hp
  · rw [if_neg hA] at h
    cases h

theorem certStep_c1_next (env : Env) (e : GatewayHostnameRequest) (st st' : St)
    (hm : MidInv e st)
    (hArn : ∀ a, env.requestCert = Except.ok a → a ≠ "")
    (h : certStep env st = StepRes.next st') :
    MidInv e st' ∧
    isStatusConditionTrue st'.ghr.status.conditions "CertificateRequested" = true ∧
    (∀ t, t ≠ "CertificateRequested" →
      isStatusConditionTrue st'.ghr.status.conditions t =
      isStatusConditionTrue st.ghr.status.conditions t) ∧
    st'.ghr.status.certificateArn ≠ "" := by
  obtain ⟨hi, hp, hn, hns, hu, hs, hg, hrm⟩ := hm
  unfold certStep at h
  by_cases hA : st.ghr.status.certificateArn = ""
  · rw [if_pos hA] at h
    have hRF : isStatusConditionTrue st.ghr.status.conditions "Ready" = false := by
      rcases Bool.eq_false_or_eq_true
        (isStatusConditionTrue st.ghr.status.conditions "Ready") with hx | hx
      · exact absurd hA (hi.1 hx).2
      · exact hx
    rcases hrc : env.requestCert with m | a
    · rw [hrc] at h
      dsimp only [] at h
      cases h
    · rw [hrc] at h
      dsimp only [] at h
      split at h
      · injection h with h2
        subst h2
        have hinv2 : StatusInv ({ st.ghr.status with
          certificateArn := a,
          conditions := setStatusCondition st.ghr.status.conditions
            { condType := "CertificateRequested", status := ConditionStatus.isTrue,
              reason := "Requested", message := "Certificate requested from ACM",
              observedGeneration := st.ghr.generation } } :
          GatewayHostnameRequestStatus) :=
          statusInv_set_cr_true st.ghr.status a _ rfl rfl hRF
        refine ⟨⟨?_, ?_, ?_, ?_, ?_, ?_, ?_, ?_⟩, ?_, ?_, ?_⟩
        · rw [statusUpdate_ghr]
          exact hinv2
        · exact statusInv_update_transport _ hinv2 hp
        · rw [statusUpdate_ghr]; exact hn
        · rw [statusUpdate_ghr]; exact hns
        · rw [statusUpdate_ghr]; exact hu
        · rw [statusUpdate_ghr]; exact hs
        · rw [statusUpdate_ghr]; exact hg
        · intro hR
          rw [statusUpdate_ghr] at hR
          rw [show (setCondition { st with ghr.status.certificateArn := a }
            "CertificateRequested" ConditionStatus.isTrue "Requested"
            "Certificate requested from ACM").ghr.status.conditions =
            setStatusCondition st.ghr.status.conditions
              { condType := "CertificateRequested", status := ConditionStatus.isTrue,
                reason := "Requested", message := "Certificate requested from ACM",
                observedGeneration := st.ghr.generation } from rfl,
            isTrue_set, if_neg (by intro hc; simp at hc), hRF] at hR
          exact absurd hR (by decide)
        · rw [statusUpdate_ghr]
          show isStatusConditionTrue (setStatusCondition st.ghr.status.conditions
            { condType := "CertificateRequested", status := ConditionStatus.isTrue,
              reason := "Requested", message := "Certificate requested from ACM",
              observedGeneration := st.ghr.generation }) "CertificateRequested" = true
          rw [isTrue_set, if_pos rfl]
          rfl
        · intro t ht
          rw [statusUpdate_ghr]
          show isStatusConditionTrue (setStatusCondition st.ghr.status.conditions
            { condType := "CertificateRequested", status := ConditionStatus.isTrue,
              reason := "Requested", message := "Certificate requested from ACM",
              observedGeneration := st.ghr.generation }) t =
            isStatusConditionTrue st.ghr.status.conditions t
          rw [isTrue_set, if_neg (by simpa using ht)]
        · rw [statusUpdate_ghr]
          show a ≠ ""
          exact hArn a hrc
      · cases h
  · rw [if_neg hA] at h
    injection h with h2
    subst h2
    exact ⟨⟨hi, hp, hn, hns, hu, hs, hg, hrm⟩, hi.2 hA, fun t ht => rfl, hA⟩

/-- Generic success path of a gated step: setting the step's own (non-Ready)
condition to True and running a status update preserves MidInv, makes the
gate True, and leaves every other condition and the recorded ARN unchanged.
`st1` is the state after the step's non-status bookkeeping. -/
theorem setTrue_update_mid (e : GatewayHostnameRequest) (st st1 : St)
    (g r msg : String) (hgr : g ≠ "Ready") (hm : MidInv e st)
    (hconds : st1.ghr.status.conditions = st.ghr.status.conditions)
    (hpers : st1.persisted = st.persisted)
    (hcert : st1.ghr.status.certificateArn = st.ghr.status.certificateArn)
    (hname : st1.ghr.name = st.ghr.name) (hns1 : st1.ghr.ns = st.ghr.ns)
    (huid : st1.ghr.uid = st.ghr.uid) (hspec : st1.ghr.spec = st.ghr.spec)
    (hgen : st1.ghr.generation = st.ghr.generation) :
    MidInv e (statusUpdate (setCondition st1 g ConditionStatus.isTrue r msg)).snd ∧
    isStatusConditionTrue (statusUpdate (setCondition st1 g
      ConditionStatus.isTrue r msg)).snd.ghr.status.conditions g = true ∧
    (∀ t, t ≠ g → isStatusConditionTrue (statusUpdate (setCondition st1 g
      ConditionStatus.isTrue r msg)).snd.ghr.status.conditions t =
      isStatusConditionTrue st.ghr.status.conditions t) ∧
    (statusUpdate (setCondition st1 g
      ConditionStatus.isTrue r msg)).snd.ghr.status.certificateArn =
      st.ghr.status.certificateArn := by
  obtain ⟨hi, hp, hn, hns, hu, hs, hg, hrm⟩ := hm
  have hinv1 : StatusInv st1.ghr.status := by
    constructor
    · intro hR
      rw [hconds] at hR
      rw [hconds, hcert]
      exact hi.1 hR
    · intro hA
      rw [hcert] at hA
      rw [hconds]
      exact hi.2 hA
  have hinv2 : StatusInv (setCondition st1 g ConditionStatus.isTrue r msg).ghr.status :=
    statusInv_set_true st1.ghr.status _ hinv1 (by simpa using hgr) rfl
  refine ⟨⟨?_, ?_, ?_, ?_, ?_, ?_, ?_, ?_⟩, ?_, ?_, ?_⟩
  · rw [statusUpdate_ghr]
    exact hinv2
  · exact statusInv_update_transport _ hinv2 (by
      show StatusInv st1.persisted
      rw [hpers]
      exact hp)
  · rw [statusUpdate_ghr]
    show st1.ghr.name = e.name
    rw [hname]; exact hn
  · rw [statusUpdate_ghr]
    show st1.ghr.ns = e.ns
    rw [hns1]; exact hns
  · rw [statusUpdate_ghr]
    show st1.ghr.uid = e.uid
    rw [huid]; exact hu
  · rw [statusUpdate_ghr]
    show st1.ghr.spec = e.spec
    rw [hspec]; exact hs
  · rw [statusUpdate_ghr]
    show st1.ghr.generation = e.generation
    rw [hgen]; exact hg
  · intro hR
    rw [statusUpdate_ghr] at hR
    rw [show (setCondition st1 g ConditionStatus.isTrue r msg).ghr.status.conditions =
      setStatusCondition st1.ghr.status.conditions
        { condType := g, status := ConditionStatus.isTrue, reason := r,
          message := msg, observedGeneration := st1.ghr.generation } from rfl,
      isTrue_set, if_neg (fun hc => hgr hc.symm), hconds] at hR
    exact hrm hR
  · rw [statusUpdate_ghr]
    show isStatusConditionTrue (setStatusCondition st1.ghr.status.conditions
      { condType := g, status := ConditionStatus.isTrue, reason := r,
        message := msg, observedGeneration := st1.ghr.generation }) g = true
    rw [isTrue_set, if_pos rfl]
    rfl
  · intro t ht
    rw [statusUpdate_ghr]
    show isStatusConditionTrue (setStatusCondition st1.ghr.status.conditions
      { condType := g, status := ConditionStatus.isTrue, reason := r,
        message := msg, observedGeneration := st1.ghr.generation }) t =
      isStatusConditionTrue st.ghr.status.conditions t
    rw [isTrue_set, if_neg (fun hc => ht hc), hconds]
  · rw [statusUpdate_ghr]
    show st1.ghr.status.certificateArn = st.ghr.status.certificateArn
    exact hcert

theorem validationStep_c1_done (env : Env) (e : GatewayHostnameRequest)
    (st : St) (out : RunOut) (hm : MidInv e st)
    (h : validationStep env st = StepRes.done out) : StatusInv out.st.persisted := by
  obtain ⟨hi, hp, hn, hns, hu, hs, hg, hrm⟩ := hm
  unfold validationStep at h
  split at h
  · cases h
  case isFalse hGate =>
    have hRF : isStatusConditionTrue st.ghr.status.conditions "Ready" = false := by
      rcases Bool.eq_false_or_eq_true
        (isStatusConditionTrue st.ghr.status.conditions "Ready") with hx | hx
      · exact absurd (hi.1 hx).1.2.2.1 hGate
      · exact hx
    dsimp only [] at h
    split at h
    · injection h with h2
      subst h2
      exact statusInv_update_transport _
        (statusInv_set_false_no_ready st.ghr.status _ hi (by intro hc; simp at hc)
          hRF (by intro hc; simp at hc)) hp
    · injection h with h2
      subst h2
      exact statusInv_update_transport _
        (statusInv_set_false_no_ready st.ghr.status _ hi (by intro hc; simp at hc)
          hRF (by intro hc; simp at hc)) hp
    · split at h
      · cases h
      · injection h with h2
        subst h2
        exact statusInv_update_transport _
          (statusInv_set_true st.ghr.status _ hi (by intro hc; simp at hc) rfl) hp

theorem validationStep_c1_next (env : Env) (e : GatewayHostnameRequest)
    (st st' : St) (hm : MidInv e st)
    (h : validationStep env st = StepRes.next st') :
    MidInv e st' ∧
    isStatusConditionTrue st'.ghr.status.conditions "DnsValidated" = true ∧
    (∀ t, t ≠ "DnsValidated" →
      isStatusConditionTrue st'.ghr.status.conditions t =
      isStatusConditionTrue st.ghr.status.conditions t) ∧
    st'.ghr.status.certificateArn = st.ghr.status.certificateArn := by
  obtain ⟨hi, hp, hn, hns, hu, hs, hg, hrm⟩ := hm
  unfold validationStep at h
  split at h
  case isTrue hGate =>
    injection h with h2
    subst h2
    exact ⟨⟨hi, hp, hn, hns, hu, hs, hg, hrm⟩, hGate, fun t ht => rfl, rfl⟩
  case isFalse hGate =>
    dsimp only [] at h
    split at h
    · cases h
    · cases h
    · split at h
      · injection h with h2
        subst h2
        exact setTrue_update_mid e st _ "DnsValidated" "RecordsCreated"
          "DNS validation records created" (by decide)
          ⟨hi, hp, hn, hns, hu, hs, hg, hrm⟩ rfl rfl rfl rfl rfl rfl rfl rfl
      · cases h

theorem issuanceStep_c1_done (env : Env) (e : GatewayHostnameRequest)
    (st : St) (out : RunOut) (hm : MidInv e st)
    (h : issuanceStep env st = StepRes.done out) : StatusInv out.st.persisted := by
  obtain ⟨hi, hp, hn, hns, hu, hs, hg, hrm⟩ := hm
  unfold issuanceStep at h
  split at h
  · cases h
  case isFalse hGate =>
    have hRF : isStatusConditionTrue st.ghr.status.conditions "Ready" = false := by
      rcases Bool.eq_false_or_eq_true
        (isStatusConditionTrue st.ghr.status.conditions "Ready") with hx | hx
      · exact absurd (hi.1 hx).1.2.2.2.1 hGate
      · exact hx
    dsimp only [] at h
    split at h
    · injection h with h2
      subst h2
      exact statusInv_update_transport _
        (statusInv_set_false_no_ready st.ghr.status _ hi (by intro hc; simp at hc)
          hRF (by intro hc; simp at hc)) hp
    · injection h with h2
      subst h2
      exact statusInv_update_transport _
        (statusInv_set_false_no_ready st.ghr.status _ hi (by intro hc; simp at hc)
          hRF (by intro hc; simp at hc)) hp
    · split at h
      · cases h
      · injection h with h2
        subst h2
        exact statusInv_update_transport _
          (statusInv_set_true st.ghr.status _ hi (by intro hc; simp at hc) rfl) hp

theorem issuanceStep_c1_next (env : Env) (e : GatewayHostnameRequest)
    (st st' : St) (hm : MidInv e st)
    (h : issuanceStep env st = StepRes.next st') :
    MidInv e st' ∧
    isStatusConditionTrue st'.ghr.status.conditions "CertificateIssued" = true ∧
    (∀ t, t ≠ "CertificateIssued" →
      isStatusConditionTrue st'.ghr.status.conditions t =
      isStatusConditionTrue st.ghr.status.conditions t) ∧
    st'.ghr.status.certificateArn = st.ghr.status.certificateArn := by
  obtain ⟨hi, hp, hn, hns, hu, hs, hg, hrm⟩ := hm
  unfold issuanceStep at h
  split at h
  case isTrue hGate =>
    injection h with h2
    subst h2
    exact ⟨⟨hi, hp, hn, hns, hu, hs, hg, hrm⟩, hGate, fun t ht => rfl, rfl⟩
  case isFalse hGate =>
    dsimp only [] at h
    split at h
    · cases h
    · cases h
    · split at h
      · injection h with h2
        subst h2
        exact setTrue_update_mid e st _ "CertificateIssued" "Issued"
          "Certificate issued by ACM" (by decide)
          ⟨hi, hp, hn, hns, hu, hs, hg, hrm⟩ rfl rfl rfl rfl rfl rfl rfl rfl
      · cases h

theorem assignStep_c1_done (env : Env) (e : GatewayHostnameRequest)
    (st : St) (out : RunOut) (hm : MidInv e st)
    (h : assignStep env st = StepRes.done out) : StatusInv out.st.persisted := by
  obtain ⟨hi, hp, hn, hns, hu, hs, hg, hrm⟩ := hm
  unfold assignStep at h
  split at h
  · cases h
  case isFalse hGate =>
    have hRF : isStatusConditionTrue st.ghr.status.conditions "Ready" = false := by
      rcases Bool.eq_false_or_eq_true
        (isStatusConditionTrue st.ghr.status.conditions "Ready") with hx | hx
      · exact absurd (hi.1 hx).1.2.2.2.2.1 hGate
      · exact hx
    dsimp only [] at h
    split at h
    · injection h with h2
      subst h2
      exact statusInv_update_transport _
        (statusInv_set_false_no_ready st.ghr.status _ hi (by intro hc; simp at hc)
          hRF (by intro hc; simp at hc)) hp
    · split at h
      · cases h
      · injection h with h2
        subst h2
        exact statusInv_update_transport _
          (statusInv_set_true st.ghr.status _ hi (by intro hc; simp at hc) rfl) hp

theorem assignStep_c1_next (env : Env) (e : GatewayHostnameRequest)
    (st st' : St) (hm : MidInv e st)
    (h : assignStep env st = StepRes.next st') :
    MidInv e st' ∧
    isStatusConditionTrue st'.ghr.status.conditions "ListenerAttached" = true ∧
    (∀ t, t ≠ "ListenerAttached" →
      isStatusConditionTrue st'.ghr.status.conditions t =
      isStatusConditionTrue st.ghr.status.conditions t) ∧
    st'.ghr.status.certificateArn = st.ghr.status.certificateArn := by
  obtain ⟨hi, hp, hn, hns, hu, hs, hg, hrm⟩ := hm
  unfold assignStep at h
  split at h
  case isTrue hGate =>
    injection h with h2
    subst h2
    exact ⟨⟨hi, hp, hn, hns, hu, hs, hg, hrm⟩, hGate, fun t ht => rfl, rfl⟩
  case isFalse hGate =>
    dsimp only [] at h
    split at h
    · cases h
    · split at h
      · injection h with h2
        subst h2
        exact setTrue_update_mid e st _ "ListenerAttached" "Attached"
          "Certificate attached to Gateway" (by decide)
          ⟨hi, hp, hn, hns, hu, hs, hg, hrm⟩ rfl rfl rfl rfl rfl rfl rfl rfl
      · cases h

set_option maxHeartbeats 1600000 in
theorem aliasStep_c1_done (env : Env) (e : GatewayHostnameRequest)
    (st : St) (out : RunOut) (hm : MidInv e st)
    (h : aliasStep env st = StepRes.done out) : StatusInv out.st.persisted := by
  obtain ⟨hi, hp, hn, hns, hu, hs, hg, hrm⟩ := hm
  unfold aliasStep at h
  split at h
  · cases h
  case isFalse hGate =>
    have hRF : isStatusConditionTrue st.ghr.status.conditions "Ready" = false := by
      rcases Bool.eq_false_or_eq_true
        (isStatusConditionTrue st.ghr.status.conditions "Ready") with hx | hx
      · exact absurd (hi.1 hx).1.2.2.2.2.2 hGate
      · exact hx
    dsimp only [] at h
    split at h
    · split at h
      · injection h with h2
        subst h2
        split <;> exact hp
      · injection h with h2
        subst h2
        split <;>
          exact statusInv_update_transport _
            (statusInv_set_false_no_ready st.ghr.status _ hi
              (by intro hc; simp at hc) hRF (by intro hc; simp at hc)) hp
    · split at h
      · cases h
      · injection h with h2
        subst h2
        split <;>
          exact statusInv_update_transport _
            (statusInv_set_true st.ghr.status _ hi (by intro hc; simp at hc) rfl) hp

set_option maxHeartbeats 1600000 in
theorem aliasStep_c1_next (env : Env) (e : GatewayHostnameRequest)
    (st st' : St) (hm : MidInv e st)
    (h : aliasStep env st = StepRes.next st') :
    MidInv e st' ∧
    isStatusConditionTrue st'.ghr.status.conditions "DnsAliasReady" = true ∧
    (∀ t, t ≠ "DnsAliasReady" →
      isStatusConditionTrue st'.ghr.status.conditions t =
      isStatusConditionTrue st.ghr.status.conditions t) ∧
    st'.ghr.status.certificateArn = st.ghr.status.certificateArn := by
  obtain ⟨hi, hp, hn, hns, hu, hs, hg, hrm⟩ := hm
  unfold aliasStep at h
  split at h
  case isTrue hGate =>
    injection h with h2
    subst h2
    exact ⟨⟨hi, hp, hn, hns, hu, hs, hg, hrm⟩, hGate, fun t ht => rfl, rfl⟩
  case isFalse hGate =>
    dsimp only [] at h
    split at h
    · split at h
      · cases h
      · cases h
    · split at h
      · injection h with h2
        subst h2
        split <;>
          exact setTrue_update_mid e st _ "DnsAliasReady" "Created"
            "Route53 ALIAS record created" (by decide)
            ⟨hi, hp, hn, hns, hu, hs, hg, hrm⟩ rfl rfl rfl rfl rfl rfl rfl rfl
      · cases h

theorem finalStep_c1 (e : GatewayHostnameRequest) (st : St) (hm : MidInv e st)
    (hGates : allGatesTrue st.ghr.status.conditions)
    (hcert : st.ghr.status.certificateArn ≠ "") :
    StatusInv (finalStep st).st.persisted := by
  obtain ⟨hi, hp, hn, hns, hu, hs, hg, hrm⟩ := hm
  obtain ⟨g1, g2, g3, g4, g5, g6⟩ := hGates
  have hinv2 : StatusInv (setCondition { st with
      ghr.status.observedGeneration := st.ghr.generation,
      ghr.status.observedSpecHash := computeSpecHash st.ghr.spec }
      "Ready" ConditionStatus.isTrue "Ready"
      "Hostname request fully provisioned").ghr.status := by
    constructor
    · intro _
      refine ⟨⟨?_, ?_, ?_, ?_, ?_, ?_⟩, hcert⟩ <;>
        · show isStatusConditionTrue (setStatusCondition st.ghr.status.conditions
            { condType := "Ready", status := ConditionStatus.isTrue,
              reason := "Ready", message := "Hostname request fully provisioned",
              observedGeneration := st.ghr.generation }) _ = true
          rw [isTrue_set, if_neg (by intro hc; simp at hc)]
          first
          | exact g1 | exact g2 | exact g3 | exact g4 | exact g5 | exact g6
    · intro _
      show isStatusConditionTrue (setStatusCondition st.ghr.status.conditions
        { condType := "Ready", status := ConditionStatus.isTrue,
          reason := "Ready", message := "Hostname request fully provisioned",
          observedGeneration := st.ghr.generation }) "CertificateRequested" = true
      rw [isTrue_set, if_neg (by intro hc; simp at hc)]
      exact g2
  unfold finalStep
  dsimp only []
  split
  · exact statusInv_update_transport _ hinv2 hp
  · exact statusInv_update_transport _ hinv2 hp

/-- Steps 2-9 keep StatusInv on every status they persist: each step's done
path persists an invariant status, and the final step only sets Ready after
all six gates have been established along the next path. -/
theorem pipelineSteps_c1 (env : Env) (e : GatewayHostnameRequest) (st : St)
    (hm : MidInv e st)
    (hArn : ∀ a, env.requestCert = Except.ok a → a ≠ "")
    (hClaim : isStatusConditionTrue e.status.conditions "Ready" = true →
      (ensureDomainClaim env.claimGet env.claimCreate e).fst = Except.ok true) :
    StatusInv (pipelineSteps env st).st.persisted := by
  unfold pipelineSteps
  cases h1 : claimStep env st with
  | done out =>
    dsimp only [andThen]
    exact claimStep_c1_done env e st out hm hClaim h1
  | next st1 =>
  dsimp only [andThen]
  obtain ⟨hm1, gClaimed1, pres1, ce1⟩ := claimStep_c1_next env e st st1 hm h1
  cases h2 : certStep env st1 with
  | done out =>
    dsimp only [andThen]
    exact certStep_c1_done env e st1 out hm1 h2
  | next st2 =>
  dsimp only [andThen]
  obtain ⟨hm2, gCR2, pres2, cert2⟩ := certStep_c1_next env e st1 st2 hm1 hArn h2
  have gClaimed2 : isStatusConditionTrue st2.ghr.status.conditions "Claimed" = true := by
    rw [pres2 "Claimed" (by decide)]
    exact gClaimed1
  cases h3 : validationStep env st2 with
  | done out =>
    dsimp only [andThen]
    exact validationStep_c1_done env e st2 out hm2 h3
  | next st3 =>
  dsimp only [andThen]
  obtain ⟨hm3, gDV3, pres3, ce3⟩ := validationStep_c1_next env e st2 st3 hm2 h3
  have gClaimed3 : isStatusConditionTrue st3.ghr.status.conditions "Claimed" = true := by
    rw [pres3 "Claimed" (by decide)]
    exact gClaimed2
  have gCR3 : isStatusConditionTrue st3.ghr.status.conditions "CertificateRequested" = true := by
    rw [pres3 "CertificateRequested" (by decide)]
    exact gCR2
  have cert3 : st3.ghr.status.certificateArn ≠ "" := by
    rw [ce3]
    exact cert2
  cases h4 : issuanceStep env st3 with
  | done out =>
    dsimp only [andThen]
    exact issuanceStep_c1_done env e st3 out hm3 h4
  | next st4 =>
  dsimp only [andThen]
  obtain ⟨hm4, gCI4, pres4, ce4⟩ := issuanceStep_c1_next env e st3 st4 hm3 h4
  have gClaimed4 : isStatusConditionTrue st4.ghr.status.conditions "Claimed" = true := by
    rw [pres4 "Claimed" (by decide)]
    exact gClaimed3
  have gCR4 : isStatusConditionTrue st4.ghr.status.conditions "CertificateRequested" = true := by
    rw [pres4 "CertificateRequested" (by decide)]
    exact gCR3
  have gDV4 : isStatusConditionTrue st4.ghr.status.conditions "DnsValidated" = true := by
    rw [pres4 "DnsValidated" (by decide)]
    exact gDV3
  have cert4 : st4.ghr.status.certificateArn ≠ "" := by
    rw [ce4]
    exact cert3
  cases h5 : assignStep env st4 with
  | done out =>
    dsimp only [andThen]
    exact assignStep_c1_done env e st4 out hm4 h5
  | next st5 =>
  dsimp only [andThen]
  obtain ⟨hm5, gLA5, pres5, ce5⟩ := assignStep_c1_next env e st4 st5 hm4 h5
  have gClaimed5 : isStatusConditionTrue st5.ghr.status.conditions "Claimed" = true := by
    rw [pres5 "Claimed" (by decide)]
    exact gClaimed4
  have gCR5 : isStatusConditionTrue st5.ghr.status.conditions "CertificateRequested" = true := by
    rw [pres5 "CertificateRequested" (by decide)]
    exact gCR4
  have gDV5 : isStatusConditionTrue st5.ghr.status.conditions "DnsValidated" = true := by
    rw [pres5 "DnsValidated" (by decide)]
    exact gDV4
  have gCI5 : isStatusConditionTrue st5.ghr.status.conditions "CertificateIssued" = true := by
    rw [pres5 "CertificateIssued" (by decide)]
    exact gCI4
  have cert5 : st5.ghr.status.certificateArn ≠ "" := by
    rw [ce5]
    exact cert4
  cases h6 : aliasStep env st5 with
  | done out =>
    dsimp only [andThen]
    exact aliasStep_c1_done env e st5 out hm5 h6
  | next st6 =>
  dsimp only [andThen]
  obtain ⟨hm6, gDAR6, pres6, ce6⟩ := aliasStep_c1_next env e st5 st6 hm5 h6
  have gClaimed6 : isStatusConditionTrue st6.ghr.status.conditions "Claimed" = true := by
    rw [pres6 "Claimed" (by decide)]
    exact gClaimed5
  have gCR6 : isStatusConditionTrue st6.ghr.status.conditions "CertificateRequested" = true := by
    rw [pres6 "CertificateRequested" (by decide)]
    exact gCR5
  have gDV6 : isStatusConditionTrue st6.ghr.status.conditions "DnsValidated" = true := by
    rw [pres6 "DnsValidated" (by decide)]
    exact gDV5
  have gCI6 : isStatusConditionTrue st6.ghr.status.conditions "CertificateIssued" = true := by
    rw [pres6 "CertificateIssued" (by decide)]
    exact gCI5
  have gLA6 : isStatusConditionTrue st6.ghr.status.conditions "ListenerAttached" = true := by
    rw [pres6 "ListenerAttached" (by decide)]
    exact gLA5
  have cert6 : st6.ghr.status.certificateArn ≠ "" := by
    rw [ce6]
    exact cert5
  exact finalStep_c1 e st6 hm6 ⟨gClaimed6, gCR6, gDV6, gCI6, gLA6, gDAR6⟩ cert6

/-- C1 (corrected): Ready=True in the persisted status implies the six gate
conditions after any normal reconcile, provided the entry status already
satisfied the controller's own persistence invariant (Ready implies the six
gates and a recorded certificate, and a recorded certificate implies
CertificateRequested), RequestCertificate never returns an empty ARN, and a
request whose entry status is Ready still owns its domain claim.  Without
these provisos the claim is false (see the counterexample: a Ready request
that loses its domain claim persists Claimed=False beside the stale
Ready=True). -/
theorem c1_amended (env : Env) (ghr : GatewayHostnameRequest)
    (hInv : StatusInv ghr.status)
    (hArn : ∀ a, env.requestCert = Except.ok a → a ≠ "")
    (hClaim : isStatusConditionTrue ghr.status.conditions "Ready" = true →
      (ensureDomainClaim env.claimGet env.claimCreate ghr).fst = Except.ok true) :
    isStatusConditionTrue
      (reconcileNormal env ghr).st.persisted.conditions "Ready" = true →
    allGatesTrue (reconcileNormal env ghr).st.persisted.conditions := by
  suffices hS : StatusInv (reconcileNormal env ghr).st.persisted by
    exact fun hR => (hS.1 hR).1
  unfold reconcileNormal
  dsimp only []
  have hm0 : MidInv ghr
      { ghr := ghr, persisted := ghr.status, claimCreated := none,
        dnsUpserts := [], reprovisionCleanupRan := false,
        statusUpdates := env.statusUpdates } :=
    ⟨hInv, hInv, rfl, rfl, rfl, rfl, rfl, fun hx => hx⟩
  cases hd : specDriftStep
      { ghr := ghr, persisted := ghr.status, claimCreated := none,
        dnsUpserts := [], reprovisionCleanupRan := false,
        statusUpdates := env.statusUpdates } with
  | done out =>
    dsimp only [andThen]
    exact specDrift_done _ out hInv hInv hd
  | next st1 =>
  dsimp only [andThen]
  have he1 := specDrift_next _ st1 hd
  subst he1
  have hmv := validateAssignedResources_midInv env ghr _ hm0
  cases hv : (validateAssignedResources env
      { ghr := ghr, persisted := ghr.status, claimCreated := none,
        dnsUpserts := [], reprovisionCleanupRan := false,
        statusUpdates := env.statusUpdates }).snd with
  | some m =>
    dsimp only []
    have hmr := midInv_rve ghr _ m hmv
    cases hvr : validateRequest ((statusUpdate (setCondition
        (validateAssignedResources env
          { ghr := ghr, persisted := ghr.status, claimCreated := none,
            dnsUpserts := [], reprovisionCleanupRan := false,
            statusUpdates := env.statusUpdates }).fst
        "ResourceValidationError" ConditionStatus.isTrue "ValidationFailed"
        ("Validation error (will auto-correct): " ++ m))).snd).ghr with
    | some m2 =>
      dsimp only []
      exact statusInv_update_transport _
        (statusInv_set_ready_false _ _ hmr.inv rfl rfl) hmr.pinv
    | none =>
      dsimp only []
      exact pipelineSteps_c1 env ghr _ hmr hArn hClaim
  | none =>
    dsimp only []
    cases hvr : validateRequest ((validateAssignedResources env
        { ghr := ghr, persisted := ghr.status, claimCreated := none,
          dnsUpserts := [], reprovisionCleanupRan := false,
          statusUpdates := env.statusUpdates }).fst).ghr with
    | some m2 =>
      dsimp only []
      exact statusInv_update_transport _
        (statusInv_set_ready_false _ _ hmv.inv rfl rfl) hmv.pinv
    | none =>
      dsimp only []
      exact pipelineSteps_c1 env ghr _ hmv hArn hClaim

/-- Witness for the corrected C1 at a concrete input: a fully provisioned
request in a healthy environment satisfies all three provisos, its reconcile
persists Ready=True, and the six gates are True in that persisted status. -/
theorem c1_amended_witness :
    StatusInv readyGhr.status ∧
    isStatusConditionTrue
      (reconcileNormal benignEnv readyGhr).st.persisted.conditions "Ready" = true ∧
    allGatesTrue (reconcileNormal benignEnv readyGhr).st.persisted.conditions := by
  have hsinv : StatusInv readyGhr.status :=
    ⟨fun _ => ⟨⟨by decide, by decide, by decide, by decide, by decide, by decide⟩,
      by decide⟩, fun _ => by decide⟩
  refine ⟨hsinv, by decide, ?_⟩
  refine c1_amended benignEnv readyGhr hsinv ?_ (fun _ => rfl) (by decide)
  intro a ha
  have h2 : "arn:aws:acm:us-east-1:1:certificate/a" = a :=
    Except.ok.inj (show Except.ok "arn:aws:acm:us-east-1:1:certificate/a" =
      Except.ok a from ha)
  rw [← h2]
  decide

end GatewayOrchestrator
